import Mathlib

/-!
Verification of the Luxcore Material Toolkit core algorithms: the filename
Role Classifier, the channel-coverage resolver, the graph-synthesis engine
(splitter / bump / displacement / emission / AO-multiply node chains) and the
principled-value transfer.  All definitions below are shallow embeddings of
the Python source files `luxcore_texture_connect.py`,
`luxcore_texture_extractor.py` and `luxcore_connect_selected.py`.
-/

namespace Luxcore

/-! ## Character and keyword matching

The classifiers build the regex pattern
`(^|[^a-zA-Z0-9])` + keyword + `($|[^a-zA-Z0-9])` and run `re.search` over the
search text.  `boundarySearch` is the direct embedding of that search: the
keyword must occur flanked on the left by the string start or a
non-alphanumeric character and on the right by the string end or a
non-alphanumeric character. -/

def isAlnumCh (c : Char) : Bool := c.isAlpha || c.isDigit

/-- The left flank is acceptable: start of string (`none`) or a
non-alphanumeric character. -/
def sepOkCh : Option Char → Bool
  | none => true
  | some c => !(isAlnumCh c)

/-- The right flank is acceptable: end of string or a non-alphanumeric
character. -/
def headSepOk : List Char → Bool
  | [] => true
  | c :: _ => !(isAlnumCh c)

/-- `listStarts kw s` holds when `kw` is an initial run of `s`. -/
def listStarts : List Char → List Char → Bool
  | [], _ => true
  | _ :: _, [] => false
  | a :: as, b :: bs => a == b && listStarts as bs

/-- Search for a flanked occurrence of `kw` anywhere in the text; `prev` is
the character immediately to the left of the current position (`none` at the
string start). -/
def boundarySearch (kw : List Char) : Option Char → List Char → Bool
  | prev, [] => kw.isEmpty && sepOkCh prev
  | prev, c :: rest =>
    (listStarts kw (c :: rest) && sepOkCh prev
      && headSepOk (List.drop kw.length (c :: rest)))
    || boundarySearch kw (some c) rest

/-- Embedding of `re.search(r'(^|[^a-zA-Z0-9])' + kw + r'($|[^a-zA-Z0-9])', s)`. -/
def boundaryMatch (kw s : String) : Bool :=
  boundarySearch kw.toList none s.toList

/-- Embedding of `os.path.splitext(s)[0]`: drop the extension starting at the
last dot, unless every character before that dot is itself a dot. -/
def splitextBase (s : List Char) : List Char :=
  let afterDot := s.reverse.dropWhile (fun c => c != '.')
  match afterDot with
  | [] => s
  | _ :: tail => if tail.any (fun c => c != '.') then tail.reverse else s

/-- Embedding of `re.split(r'[_\-\.]', s)[-1]`: the last segment after the
final underscore, dash or dot. -/
def lastSegment (s : List Char) : List Char :=
  (s.reverse.takeWhile (fun c => c != '_' && c != '-' && c != '.')).reverse

/-! ## The keyword tables -/

/-- The closed role enumeration used by both keyword tables. -/
inductive TexType
  | orm | ors | emission | color | normal | bump
  | metallic | roughness | specular | height | opacity | ao
  deriving DecidableEq, Repr

/-- One entry of a `texture_mapping` dictionary: role, keyword list and
priority. -/
structure KwEntry where
  ty : TexType
  keywords : List String
  priority : Int
  deriving DecidableEq, Repr

/-- The `texture_mapping` table of `luxcore_texture_extractor.py`
(`connect_textures_to_material`, dictionary insertion order preserved). -/
def extractorMapping : List KwEntry :=
  [ ⟨.orm, ["orm", "arm", "mro", "metallicroughness", "roughnessmetallic",
      "occlusionroughnessmetallic", "ambientroughnessmetallic"], 12⟩,
    ⟨.ors, ["ors", "occlusionroughnessspecular", "roughnessspecularocclusion",
      "specularroughnessocclusion", "ambientroughnessspecular",
      "occlusionroughnessgloss", "roughnessglossocclusion"], 11⟩,
    ⟨.emission, ["emission", "emit", "emissive", "emiss", "glow", "light"], 10⟩,
    ⟨.color, ["color", "diff", "diffuse", "albedo", "basecolor", "col", "base",
      "basecol", "diffuse", "dif", "dff", "clr", "colour"], 9⟩,
    ⟨.normal, ["normal", "norm", "nrm", "nor", "normalmap", "normal_map",
      "normalgl", "normal_dx", "nrml", "normals", "normal_gl", "normalgl",
      "norm_gl"], 8⟩,
    ⟨.bump, ["bump", "bmp", "bump_map", "bumpmap"], 7⟩,
    ⟨.metallic, ["metal", "metallic", "metallness", "metalness", "mtl", "met",
      "metalic"], 6⟩,
    ⟨.roughness, ["rough", "roughness", "rugosità", "roughness", "gloss",
      "glossiness", "rgh", "roughness", "rghns", "rough", "rug"], 5⟩,
    ⟨.specular, ["spec", "specular", "specularity", "spc", "specular",
      "specularlevel"], 4⟩,
    ⟨.height, ["height", "disp", "displacement", "heightmap", "height_map",
      "hgt", "displace", "depth", "depthmap"], 3⟩,
    ⟨.opacity, ["opacity", "alpha", "transparency", "transparent", "opac",
      "alph", "trans", "op", "mask"], 2⟩,
    ⟨.ao, ["ao", "ambientocclusion", "occlusion", "ambient",
      "ambient_occlusion", "occl", "ambocc", "ambientoccl", "occlusion",
      "ao_", "_ao", "ao_map"], 1⟩ ]

/-- The `texture_mapping` table of `luxcore_texture_connect.py`
(`connect_textures_to_material`, dictionary insertion order preserved). -/
def connectMapping : List KwEntry :=
  [ ⟨.orm, ["orm", "arm", "mro", "metallicroughness", "roughnessmetallic",
      "occlusionroughnessmetallic", "ambientroughnessmetallic"], 12⟩,
    ⟨.ors, ["ors", "occlusionroughnessspecular", "roughnessspecularocclusion",
      "specularroughnessocclusion", "ambientroughnessspecular",
      "occlusionroughnessgloss", "roughnessglossocclusion"], 11⟩,
    ⟨.color, ["color", "diff", "diffuse", "albedo", "basecolor", "col",
      "base"], 9⟩,
    ⟨.emission, ["emission", "emit", "emissive", "emiss", "glow", "light"], 10⟩,
    ⟨.normal, ["normal", "norm", "nrm", "nor", "normalmap", "normal_map",
      "normalgl", "normaldx"], 8⟩,
    ⟨.bump, ["bump", "bmp", "bump_map", "bumpmap"], 7⟩,
    ⟨.metallic, ["metal", "metallic", "metalness", "mtl", "met"], 6⟩,
    ⟨.roughness, ["rough", "roughness", "rgh", "rug"], 5⟩,
    ⟨.specular, ["spec", "specular", "specularity", "spc"], 4⟩,
    ⟨.height, ["height", "disp", "displacement", "heightmap"], 3⟩,
    ⟨.opacity, ["opacity", "alpha", "transparency", "transparent", "mask"], 2⟩,
    ⟨.ao, ["ao", "ambientocclusion", "occlusion", "ambient"], 1⟩ ]

/-- The priority the connect-operator's sort key assigns to each role
(`texture_mapping[x[1]].get('priority', 0)`). -/
def connPriority : TexType → Int
  | .orm => 12 | .ors => 11 | .emission => 10 | .color => 9 | .normal => 8
  | .bump => 7 | .metallic => 6 | .roughness => 5 | .specular => 4
  | .height => 3 | .opacity => 2 | .ao => 1

/-! ## The two classifiers

Both source files loop over the keyword table; within an entry they `break`
at the first keyword whose boundary pattern matches the search text.  The
extractor additionally computes a suffix match (keyword equal to the last
separator-delimited segment of the extension-stripped name) which takes
absolute precedence over non-suffix matches; the connect operator has no
suffix logic at all. -/

/-- The first keyword of an entry whose boundary pattern matches the search
text (the inner loop `break`s as soon as one matches). -/
def firstMatchKw (searchText : List Char) (kws : List String) : Option String :=
  kws.find? (fun kw => boundarySearch kw.toList none searchText)

/-- Embedding of `str.lower()` (ASCII case folding, as the keyword tables and
all names of interest are ASCII). -/
def lowerStr (s : String) : List Char := s.toList.map Char.toLower

/-- The search text `node_name.lower() + " " + image_name.lower()`. -/
def extSearchText (nodeName imageName : String) : List Char :=
  lowerStr nodeName ++ [' '] ++ lowerStr imageName

/-- The suffix text of the extractor: last `[_\-.]`-segment of the
extension-stripped image name (falling back to the node name). -/
def extSuffixText (nodeName imageName : String) : List Char :=
  lastSegment (if lowerStr imageName ≠ [] then splitextBase (lowerStr imageName)
    else splitextBase (lowerStr nodeName))

/-- Whether `e`'s first boundary-matching keyword equals the suffix text:
exactly the situation in which the extractor's loop registers `e` as a suffix
match. -/
def entrySuffixHit (searchText suffixText : List Char) (e : KwEntry) : Bool :=
  match firstMatchKw searchText e.keywords with
  | some kw => kw.toList == suffixText
  | none => false

/-- The body of the extractor's best-match update once the entry's first
boundary-matching keyword (if any) is known.  The branch structure follows
the source: a suffix match over a non-suffix best is taken unconditionally;
two matches of the same suffix status compare by priority; a non-suffix
match never displaces a suffix best. -/
def extStepKw (suffixText : List Char) (st : Option TexType × Int × Bool)
    (e : KwEntry) : Option String → Option TexType × Int × Bool
  | none => st
  | some kw =>
    if kw.toList == suffixText then
      if st.2.2 then
        (if e.priority > st.2.1 then (some e.ty, e.priority, true) else st)
      else (some e.ty, e.priority, true)
    else
      if st.2.2 then st
      else (if e.priority > st.2.1 then (some e.ty, e.priority, false) else st)

/-- One step of the extractor's best-match loop.  State:
`(best_match, best_priority, best_is_suffix)`. -/
def extStep (searchText suffixText : List Char)
    (st : Option TexType × Int × Bool) (e : KwEntry) :
    Option TexType × Int × Bool :=
  extStepKw suffixText st e (firstMatchKw searchText e.keywords)

/-- Extractor classifier (`luxcore_texture_extractor.py`,
`connect_textures_to_material`, first pass). -/
def classifyExtractor (nodeName imageName : String) : Option TexType :=
  (extractorMapping.foldl
    (extStep (extSearchText nodeName imageName) (extSuffixText nodeName imageName))
    (none, -1, false)).1

/-- One step of the connect operator's best-match loop.  State:
`(best_match, best_priority)`. -/
def connStep (searchText : List Char)
    (st : Option TexType × Int) (e : KwEntry) : Option TexType × Int :=
  match firstMatchKw searchText e.keywords with
  | none => st
  | some _ => if e.priority > st.2 then (some e.ty, e.priority) else st

/-- Connect-operator classifier (`luxcore_texture_connect.py`,
`connect_textures_to_material`, first pass). -/
def classifyConnect (nodeName imageName : String) : Option TexType :=
  (connectMapping.foldl (connStep (extSearchText nodeName imageName))
    (none, -1)).1

/-! ## Characterisation of boundary matching -/

/-- The character immediately preceding the current position, after walking
over `l` starting with preceding character `p`. -/
def prevOf (l : List Char) (p : Option Char) : Option Char :=
  l.foldl (fun _ c => some c) p

theorem listStarts_iff (kw : List Char) :
    ∀ s : List Char, listStarts kw s = true ↔ ∃ t, s = kw ++ t := by
  induction kw with
  | nil => intro s; simp [listStarts]
  | cons a as ih =>
    intro s
    cases s with
    | nil =>
      simp [listStarts]
    | cons b bs =>
      simp only [listStarts, Bool.and_eq_true, beq_iff_eq, ih, List.cons_append]
      constructor
      · rintro ⟨rfl, t, rfl⟩
        exact ⟨t, rfl⟩
      · rintro ⟨t, ht⟩
        injection ht with h1 h2
        exact ⟨h1.symm, t, h2⟩

theorem boundarySearch_iff (kw : List Char) :
    ∀ (s : List Char) (prev : Option Char),
      boundarySearch kw prev s = true ↔
        ∃ pre post, s = pre ++ kw ++ post ∧
          sepOkCh (prevOf pre prev) = true ∧ headSepOk post = true := by
  intro s
  induction s with
  | nil =>
    intro prev
    simp only [boundarySearch, Bool.and_eq_true]
    constructor
    · rintro ⟨hk, hp⟩
      have hkw : kw = [] := by
        cases kw with
        | nil => rfl
        | cons a as => simp [List.isEmpty] at hk
      exact ⟨[], [], by simp [hkw], by simpa [prevOf] using hp, rfl⟩
    · rintro ⟨pre, post, h, hp, hh⟩
      have h' : pre = [] ∧ kw = [] ∧ post = [] := by
        have := h.symm
        simpa [List.append_eq_nil] using this
      obtain ⟨hpre, hkw, hpost⟩ := h'
      subst hpre; subst hkw
      exact ⟨rfl, by simpa [prevOf] using hp⟩
  | cons c rest ih =>
    intro prev
    simp only [boundarySearch, Bool.or_eq_true, Bool.and_eq_true]
    constructor
    · rintro (⟨⟨hs, hp⟩, hh⟩ | hrec)
      · obtain ⟨t, ht⟩ := (listStarts_iff kw (c :: rest)).1 hs
        refine ⟨[], t, by simpa using ht, by simpa [prevOf] using hp, ?_⟩
        rw [ht, List.drop_left] at hh
        exact hh
      · obtain ⟨pre, post, hest, hp, hh⟩ := (ih (some c)).1 hrec
        exact ⟨c :: pre, post, by simp [hest], hp, hh⟩
    · rintro ⟨pre, post, hs, hp, hh⟩
      cases pre with
      | nil =>
        left
        simp only [List.nil_append] at hs
        refine ⟨⟨(listStarts_iff kw (c :: rest)).2 ⟨post, hs⟩, by simpa [prevOf] using hp⟩, ?_⟩
        rw [hs, List.drop_left]
        exact hh
      | cons c' pre' =>
        right
        have hc : c' = c ∧ rest = pre' ++ kw ++ post := by
          simp only [List.cons_append] at hs
          injection hs with h1 h2
          exact ⟨h1.symm, h2⟩
        obtain ⟨rfl, hrest⟩ := hc
        exact (ih (some c')).2 ⟨pre', post, hrest, hp, hh⟩

/-! ## Suffix precedence in the extractor classifier -/

theorem extStep_snd (s suf : List Char) (st : Option TexType × Int × Bool)
    (e : KwEntry) :
    (extStep s suf st e).2.2 = (st.2.2 || entrySuffixHit s suf e) := by
  obtain ⟨b, p, sb⟩ := st
  unfold extStep entrySuffixHit
  cases h : firstMatchKw s e.keywords with
  | none => simp [extStepKw]
  | some kw =>
    cases hsuf : (kw.toList == suf) <;> cases sb <;>
      simp only [extStepKw, hsuf, Bool.or_true, Bool.or_false, if_true,
        if_false, Bool.false_eq_true, Bool.true_eq_false] <;>
      first
        | rfl
        | (split <;> rfl)

theorem extFold_any (s suf : List Char) :
    ∀ (l : List KwEntry) (st : Option TexType × Int × Bool),
      (l.foldl (extStep s suf) st).2.2
        = (st.2.2 || l.any (entrySuffixHit s suf)) := by
  intro l
  induction l with
  | nil => intro st; simp
  | cons e l ih =>
    intro st
    simp only [List.foldl_cons, List.any_cons, ih, extStep_snd, Bool.or_assoc]

theorem extStep_best (s suf : List Char) (C : TexType → Prop)
    (st : Option TexType × Int × Bool) (e : KwEntry)
    (h1 : st.2.2 = true → ∃ t, st.1 = some t ∧ C t)
    (he : entrySuffixHit s suf e = true → C e.ty) :
    (extStep s suf st e).2.2 = true →
      ∃ t, (extStep s suf st e).1 = some t ∧ C t := by
  unfold extStep
  cases h : firstMatchKw s e.keywords with
  | none => exact h1
  | some kw =>
    have he' : (kw.toList == suf) = true → C e.ty := by
      intro hk
      apply he
      unfold entrySuffixHit
      rw [h]
      exact hk
    obtain ⟨b, p, sb⟩ := st
    cases hsuf : (kw.toList == suf) <;> cases sb <;>
      simp only [extStepKw, hsuf, if_true, if_false, Bool.false_eq_true,
        Bool.true_eq_false]
    · intro hh
      split at hh <;> simp at hh
    · intro _
      exact h1 rfl
    · intro _
      exact ⟨e.ty, rfl, he' hsuf⟩
    · split
      · intro _
        exact ⟨e.ty, rfl, he' hsuf⟩
      · intro _
        exact h1 rfl

theorem extFold_best (s suf : List Char) (C : TexType → Prop) :
    ∀ (l : List KwEntry) (st : Option TexType × Int × Bool),
      (st.2.2 = true → ∃ t, st.1 = some t ∧ C t) →
      (∀ e ∈ l, entrySuffixHit s suf e = true → C e.ty) →
      (l.foldl (extStep s suf) st).2.2 = true →
      ∃ t, (l.foldl (extStep s suf) st).1 = some t ∧ C t := by
  intro l
  induction l with
  | nil =>
    intro st h1 _ hf
    exact h1 hf
  | cons e l ih =>
    intro st h1 h2 hf
    exact ih (extStep s suf st e)
      (extStep_best s suf C st e h1 (h2 e (List.mem_cons_self e l)))
      (fun e' he' => h2 e' (List.mem_cons_of_mem _ he')) hf

/-! ## Claim C1: suffix precedence in the Role Classifier -/

/-- C1, counterexample.  The claim states that whenever the name's last
separator-delimited segment exactly equals some keyword of a role entry, that
entry's role wins over any non-suffix match of higher priority.  For the name
`"rough_diffuse_gloss"` the suffix `"gloss"` is a keyword of the roughness
entry, yet the extractor classifies the texture as color (priority 9,
non-suffix): the roughness entry `break`s at its first boundary-matching
keyword `"rough"`, so its suffix keyword `"gloss"` is never tested. -/
theorem c1_suffix_counterexample :
    extSuffixText "rough_diffuse_gloss" "" = "gloss".toList
    ∧ (∃ e ∈ extractorMapping, e.ty = TexType.roughness ∧ "gloss" ∈ e.keywords)
    ∧ classifyExtractor "rough_diffuse_gloss" "" = some TexType.color := by
  refine ⟨by decide, ⟨extractorMapping.get ⟨7, by decide⟩, by decide, by decide, by decide⟩, by decide⟩

/-- C1, amended.  In the extractor's classifier, whenever some role entry's
*first boundary-matching keyword* exactly equals the suffix (the last
separator-delimited segment of the normalized name), the classifier assigns
the role of such a suffix-matching entry in preference to any non-suffix
keyword match, regardless of priority; in particular `"diffuse_normal"` is
classified as Normal, not BaseColor. -/
theorem c1_suffix_precedence :
    (∀ nodeName imageName : String,
      (extractorMapping.any (entrySuffixHit (extSearchText nodeName imageName)
          (extSuffixText nodeName imageName))) = true →
      ∃ e ∈ extractorMapping,
        entrySuffixHit (extSearchText nodeName imageName)
          (extSuffixText nodeName imageName) e = true ∧
        classifyExtractor nodeName imageName = some e.ty)
    ∧ classifyExtractor "diffuse_normal" "" = some TexType.normal := by
  constructor
  · intro nn im hany
    have hflag : (extractorMapping.foldl
        (extStep (extSearchText nn im) (extSuffixText nn im))
        (none, -1, false)).2.2 = true := by
      rw [extFold_any]
      simp [hany]
    have hbest := extFold_best (extSearchText nn im) (extSuffixText nn im)
      (fun t => ∃ e ∈ extractorMapping,
        entrySuffixHit (extSearchText nn im) (extSuffixText nn im) e = true
          ∧ t = e.ty)
      extractorMapping (none, -1, false)
      (by intro h; simp at h)
      (fun e he hh => ⟨e, he, hh, rfl⟩) hflag
    obtain ⟨t, ht, e, he, hh, rfl⟩ := hbest
    exact ⟨e, he, hh, ht⟩
  · decide

/-- C1, witness for the amended theorem: the run on `"diffuse_normal"`
satisfies the hypothesis and therefore lands on a suffix-matching entry. -/
theorem c1_suffix_precedence_witness :
    ∃ e ∈ extractorMapping,
      entrySuffixHit (extSearchText "diffuse_normal" "")
        (extSuffixText "diffuse_normal" "") e = true ∧
      classifyExtractor "diffuse_normal" "" = some e.ty :=
  c1_suffix_precedence.1 "diffuse_normal" "" (by decide)

/-! ## Claim C5: boundary matching -/

/-- C5, counterexample.  The claim states the bare name `"col"` must not
match the color keyword group; but `"col"` is itself a keyword of the color
entry and is flanked by the string start and a space in the search text, so
the connect classifier assigns color. -/
theorem c5_boundary_counterexample :
    classifyConnect "col" "" = some TexType.color := by
  decide

/-- C5, amended.  A keyword matches only when flanked by a separator
(non-alphanumeric character) or the string start/end — formalised as an exact
characterisation of the classifier's matcher — and `"base_color"` matches the
color keyword group while `"recolored"` does not, despite containing
`"color"`.  The bare name `"col"` *does* match the color group, because
`"col"` is itself one of its keywords. -/
theorem c5_boundary_matching :
    (∀ kw s : List Char,
      boundarySearch kw none s = true ↔
        ∃ pre post, s = pre ++ kw ++ post ∧
          sepOkCh (prevOf pre none) = true ∧ headSepOk post = true)
    ∧ classifyConnect "base_color" "" = some TexType.color
    ∧ classifyConnect "recolored" "" = none
    ∧ classifyConnect "col" "" = some TexType.color
    ∧ (∃ e ∈ connectMapping, e.ty = TexType.color ∧ "col" ∈ e.keywords) := by
  refine ⟨fun kw s => boundarySearch_iff kw s none, by decide, by decide,
    by decide, ?_⟩
  exact ⟨connectMapping.get ⟨2, by decide⟩, by decide, by decide, by decide⟩

/-! ## The node-graph model

The host graph exposes nodes with named input/output sockets and directed
links.  Creating a link to an input socket replaces any link already ending
there (Blender input sockets accept a single link); removing a link deletes
one specific edge.  Node kinds determine the socket layout. -/

/-- A socket reference: owning node id and socket name. -/
structure Port where
  node : Nat
  sock : String
  deriving DecidableEq, Repr

/-- A directed link from an output socket to an input socket. -/
structure Edge where
  src : Port
  dst : Port
  deriving DecidableEq, Repr

/-- A graph node: id, `bl_idname` kind, node name and image name (the two
strings the classifier reads). -/
structure GNode where
  id : Nat
  kind : String
  name : String
  image : String
  deriving DecidableEq, Repr

/-- The mutable node graph; `fresh` is the next node id. -/
structure Graph where
  nodes : List GNode
  edges : List Edge
  fresh : Nat
  deriving DecidableEq, Repr

/-- Input-socket layout per node kind (host schema: LuxCore node classes). -/
def disneyInputs : List String :=
  ["Base Color", "Subsurface", "Metallic", "Specular", "Specular Tint",
   "Roughness", "Anisotropic", "Sheen", "Sheen Tint", "Clearcoat",
   "Clearcoat Gloss", "Opacity", "Bump", "Emission"]

def nodeInputs : String → List String
  | "LuxCoreNodeMatDisney" => disneyInputs
  | "LuxCoreNodeTexImagemap" => ["2D Mapping"]
  | "LuxCoreNodeTexSplitFloat3" => ["Color"]
  | "LuxCoreNodeTexMath" => ["Value 1", "Value 2"]
  | "LuxCoreNodeMatEmission" => ["Color"]
  | "LuxCoreNodeTexBump" => ["Value", "Bump Height", "Sampling Distance"]
  | "LuxCoreNodeShapeHeightDisplacement" => ["Height", "Shape"]
  | "LuxCoreNodeShapeSubdiv" => ["Shape"]
  | "LuxCoreNodeMatOutput" => ["Material", "Shape"]
  | _ => []

/-- Output-socket layout per node kind (host schema). -/
def nodeOutputs : String → List String
  | "LuxCoreNodeMatDisney" => ["Material"]
  | "LuxCoreNodeTexImagemap" => ["Color"]
  | "LuxCoreNodeTexSplitFloat3" => ["R", "G", "B"]
  | "LuxCoreNodeTexMath" => ["Value"]
  | "LuxCoreNodeMatEmission" => ["Emission"]
  | "LuxCoreNodeTexBump" => ["Bump"]
  | "LuxCoreNodeShapeHeightDisplacement" => ["Shape"]
  | "LuxCoreNodeShapeSubdiv" => ["Shape"]
  | "LuxCoreNodeTexConstantFloat3" => ["Color"]
  | "LuxCoreNodeTexMapping2D" => ["2D Mapping"]
  | _ => []

def Graph.kindOf (g : Graph) (n : Nat) : String :=
  match g.nodes.find? (fun x => x.id == n) with
  | some x => x.kind
  | none => ""

def Graph.inputNames (g : Graph) (n : Nat) : List String :=
  nodeInputs (g.kindOf n)

def Graph.outputNames (g : Graph) (n : Nat) : List String :=
  nodeOutputs (g.kindOf n)

/-- `node_tree.nodes.new(type=kind)`: appends a node with the next id. -/
def Graph.addNode (g : Graph) (kind label : String) : Graph × Nat :=
  ({ nodes := g.nodes ++ [⟨g.fresh, kind, label, ""⟩], edges := g.edges,
     fresh := g.fresh + 1 }, g.fresh)

/-- An exception-driven fallback chain `for node_type in kinds: try new`:
the first kind the host supports is created; if none is, the step yields no
node. -/
def Graph.tryAddNode (sup : String → Bool) (g : Graph) (kinds : List String)
    (label : String) : Graph × Option Nat :=
  match kinds.find? sup with
  | some k =>
    let r := g.addNode k label
    (r.1, some r.2)
  | none => (g, none)

/-- `node_tree.links.new(src, dst)`: the destination input socket accepts a
single link, so any existing link into `dst` is replaced. -/
def Graph.linksNew (g : Graph) (src dst : Port) : Graph :=
  { g with edges := g.edges.filter (fun e => !(decide (e.dst = dst))) ++ [⟨src, dst⟩] }

/-- `node_tree.links.remove(link)` applied to the first link into `dst`
(the removal loops in the source `break` after the first hit). -/
def Graph.removeFirstEdgeTo (g : Graph) (dst : Port) : Graph :=
  { g with edges := g.edges.eraseP (fun e => decide (e.dst = dst)) }

/-- Link two optional sockets; silently a no-op when either is absent
(mirrors the pervasive `if color_output: links.new(...)` guards). -/
def linkTo (g : Graph) (src dst : Option Port) : Graph :=
  match src, dst with
  | some s, some d => g.linksNew s d
  | _, _ => g

/-- Substring test (`frag in s` on lowered names). -/
def containsSeq (needle : List Char) : List Char → Bool
  | [] => needle.isEmpty
  | c :: t => listStarts needle (c :: t) || containsSeq needle t

def findInputExact (g : Graph) (n : Nat) (name : String) : Option Port :=
  if (g.inputNames n).contains name then some ⟨n, name⟩ else none

/-- First input whose lowered name contains one of the lowered fragments. -/
def findInputAnySub (g : Graph) (n : Nat) (frags : List String) : Option Port :=
  ((g.inputNames n).find? (fun s =>
    frags.any (fun f => containsSeq (lowerStr f) (lowerStr s)))).map
    (fun s => ⟨n, s⟩)

/-- First of the candidate names that is an input of `n`
(`for socket_name in names: if socket_name in node.inputs`). -/
def findInputFromList (g : Graph) (n : Nat) (names : List String) : Option Port :=
  (names.find? (fun s => (g.inputNames n).contains s)).map (fun s => ⟨n, s⟩)

def inputAt (g : Graph) (n : Nat) (i : Nat) : Option Port :=
  ((g.inputNames n).get? i).map (fun s => ⟨n, s⟩)

def outputAt (g : Graph) (n : Nat) (i : Nat) : Option Port :=
  ((g.outputNames n).get? i).map (fun s => ⟨n, s⟩)

/-- The ubiquitous output selection: the output whose lowered name is
`color`, `image` or `value`, else the first output (none when the node has
no outputs at all). -/
def texColorOutput (g : Graph) (n : Nat) : Option Port :=
  (match (g.outputNames n).find? (fun s =>
      ["color", "image", "value"].contains (String.mk (lowerStr s))) with
    | some s => some s
    | none => (g.outputNames n).head?).map (fun s => ⟨n, s⟩)

/-! ## Synthesis helpers of `luxcore_texture_connect.py` -/

def mappingInputCandidates : List String :=
  ["2D Mapping", "Mapping", "UV", "UV Map", "UVs", "Vector"]

def mappingOutputCandidates : List String :=
  ["2D Mapping", "Mapping", "UV", "Vector", "Output"]

/-- `connect_mapping_to_texture`: route the shared UV mapping node into the
texture's mapping input; fall back to the first input unless it looks like a
color/height input. -/
def connectMappingToTexture (g : Graph) (mapping tex : Nat) : Graph :=
  if (g.outputNames mapping).isEmpty || (g.inputNames tex).isEmpty then g
  else
    match (g.inputNames tex).find? (fun inp => mappingInputCandidates.any
        (fun mi => containsSeq (lowerStr mi) (lowerStr inp))) with
    | some inp =>
      match mappingOutputCandidates.find?
          (fun o => (g.outputNames mapping).contains o) with
      | some o => g.linksNew ⟨mapping, o⟩ ⟨tex, inp⟩
      | none => g
    | none =>
      match (g.inputNames tex).head? with
      | some inp =>
        if !(containsSeq (lowerStr "color") (lowerStr inp))
            && !(containsSeq (lowerStr "height") (lowerStr inp)) then
          linkTo g (outputAt g mapping 0) (some ⟨tex, inp⟩)
        else g
      | none => g

/-- First stage of `setup_combined_texture`: the combined texture's color
output into the splitter's first input. -/
def splitFeed (g : Graph) (combined splitN : Nat) : Graph :=
  linkTo g (texColorOutput g combined) (inputAt g splitN 0)

/-- Second stage: splitter channel G (`outputs[1]`) into Roughness (exact
name, else the first input containing `rough`). -/
def splitWireRoughness (g : Graph) (material splitN : Nat) : Graph :=
  if 1 < (g.outputNames splitN).length then
    linkTo g (outputAt g splitN 1)
      ((findInputExact g material "Roughness").orElse
        (fun _ => findInputAnySub g material ["rough"]))
  else g

/-- Third stage: splitter channel B (`outputs[2]`) into Metallic for ORM,
Specular for ORS. -/
def splitWireThird (g : Graph) (material splitN : Nat) (ty : TexType) : Graph :=
  if ty = TexType.orm then
    (if 2 < (g.outputNames splitN).length then
      linkTo g (outputAt g splitN 2)
        ((findInputExact g material "Metallic").orElse
          (fun _ => findInputAnySub g material ["metal"]))
    else g)
  else if ty = TexType.ors then
    (if 2 < (g.outputNames splitN).length then
      linkTo g (outputAt g splitN 2)
        ((findInputExact g material "Specular").orElse
          (fun _ => findInputAnySub g material ["spec"]))
    else g)
  else g

/-- `setup_combined_texture` (connect operator): feed the combined ORM/ORS
texture into a 3-way splitter, wire channel G to Roughness and channel B to
Metallic (ORM) or Specular (ORS), and return channel R as the occlusion
channel. -/
def setupCombinedTexture (sup : String → Bool) (g : Graph)
    (material combined : Nat) (ty : TexType) :
    Graph × Option Port × List String :=
  match Graph.tryAddNode sup g ["LuxCoreNodeTexSplitFloat3"]
      (if ty = TexType.orm then "Split ORM" else "Split ORS") with
  | (g0, none) => (g0, none, ["Cannot create SplitFloat3 node"])
  | (g0, some splitN) =>
    let g3 := splitWireThird
      (splitWireRoughness (splitFeed g0 combined splitN) material splitN)
      material splitN ty
    (g3, outputAt g3 splitN 0, [])

/-- Tail of `setup_emission`: connect the emission node's first output to the
material's Emission input (exact name, then substring fallback). -/
def setupEmissionFinish (g : Graph) (material em : Nat) :
    Graph × Bool × List String :=
  match outputAt g em 0 with
  | none => (g, false, [])
  | some eout =>
    match findInputExact g material "Emission" with
    | some s => (g.linksNew eout s, true, [])
    | none =>
      match findInputAnySub g material ["emission", "emit"] with
      | some s => (g.linksNew eout s, true, [])
      | none => (g, false, ["Emission input not found in Disney node"])

/-- `setup_emission` (connect operator): route the emission texture through
an intermediate emission node into the material's Emission input. -/
def setupEmission (sup : String → Bool) (g : Graph) (material tex : Nat) :
    Graph × Bool × List String :=
  match Graph.tryAddNode sup g ["LuxCoreNodeMatEmission"] "Emission" with
  | (g0, none) => (g0, false, ["Cannot create Emission node"])
  | (g0, some em) =>
    match texColorOutput g0 tex with
    | none => setupEmissionFinish g0 material em
    | some cOut =>
      match (g0.inputNames em).find?
          (fun s => containsSeq (lowerStr "color") (lowerStr s)) with
      | none => (g0, false, ["Color input not found in Emission node"])
      | some ci => setupEmissionFinish (g0.linksNew cOut ⟨em, ci⟩) material em

/-- Tail of `setup_bump`: the bump node's bump output (or first output) into
the material's `Bump`/`bump`/`Normal`/`normal` input, with a substring
fallback scan. -/
def setupBumpFinish (g : Graph) (material bump : Nat) :
    Graph × Bool × List String :=
  if (g.outputNames bump).isEmpty then (g, false, [])
  else
    match (findInputFromList g material ["Bump", "bump", "Normal", "normal"]).orElse
        (fun _ => findInputAnySub g material ["bump", "normal"]),
      (match (g.outputNames bump).find?
          (fun o => containsSeq (lowerStr "bump") (lowerStr o)) with
        | some o => some (Port.mk bump o)
        | none => outputAt g bump 0) with
    | some s, some b => (g.linksNew b s, true, [])
    | _, _ => (g, false, ["Bump input not found in material node"])

/-- `setup_bump` (connect operator): texture value into an intermediate bump
node, bump output into the material's Bump/Normal socket.  (The fixed
sampling-distance/height parameters are socket default values, outside the
graph structure modelled here.) -/
def setupBump (sup : String → Bool) (g : Graph) (material tex : Nat) :
    Graph × Bool × List String :=
  match Graph.tryAddNode sup g ["LuxCoreNodeTexBump"] "Bump" with
  | (g0, none) => (g0, false, ["Cannot create Bump node"])
  | (g0, some bump) =>
    match texColorOutput g0 tex with
    | none => setupBumpFinish g0 material bump
    | some cOut =>
      match (g0.inputNames bump).find?
          (fun s => containsSeq (lowerStr "value") (lowerStr s)) with
      | none => (g0, false, ["Value input not found in Bump node"])
      | some vin => setupBumpFinish (g0.linksNew cOut ⟨bump, vin⟩) material bump

/-- The displacement-node fallback chain of `setup_displacement`. -/
def displacementKinds : List String :=
  ["LuxCoreNodeShapeHeightDisplacement", "LuxCoreNodeMatHeightDisplacement",
   "LuxCoreNodeMatDisplacement", "LuxCoreNodeDisplacement",
   "luxcore_material_height_displacement", "luxcore_material_displacement"]

/-- Tail of `setup_displacement`: displacement node's Shape output into the
material-output node's Displacement/Shape input. -/
def setupDispFinal (g : Graph) (disp mo : Nat) : Graph :=
  if (g.outputNames disp).isEmpty then g
  else
    match ["Displacement", "displacement", "Shape", "shape"].find?
        (fun s => (g.inputNames mo).contains s) with
    | none => g
    | some iname =>
      let sout :=
        if (g.outputNames disp).contains "Shape" then some (Port.mk disp "Shape")
        else outputAt g disp 0
      linkTo g sout (some ⟨mo, iname⟩)

/-- Stage of `setup_displacement`: height texture into the displacement
node's Height input (first present name of the candidate list). -/
def dispFeedHeight (g : Graph) (disp height : Nat) : Graph :=
  match ["Height", "height", "Displacement", "displacement", "Texture",
      "texture"].find? (fun s => (g.inputNames disp).contains s) with
  | some iname => linkTo g (texColorOutput g height) (some ⟨disp, iname⟩)
  | none => g

/-- Stage of `setup_displacement`: subdivision node's Shape output into the
displacement node's Shape input. -/
def dispWireSubdiv (g : Graph) (disp subdiv : Nat) : Graph :=
  match (g.inputNames disp).find? (fun s =>
      s == "Shape" || containsSeq (lowerStr "shape") (lowerStr s)) with
  | none => g
  | some shapeIn =>
    let sout :=
      match (g.outputNames subdiv).find? (fun s =>
          s == "Shape" || containsSeq (lowerStr "shape") (lowerStr s)) with
      | some o => some (Port.mk subdiv o)
      | none => outputAt g subdiv 0
    linkTo g sout (some ⟨disp, shapeIn⟩)

/-- `setup_displacement` (connect operator).  With no material-output node
the function returns immediately — creating nothing and reporting nothing.
Otherwise: displacement node (fallback chain), height texture into its
Height input, a subdivision node into its Shape input, and its Shape output
into the material-output node.  (The height/scale/smooth-normal parameters
are node fields, outside the graph structure modelled here.) -/
def setupDisplacement (sup : String → Bool) (g : Graph)
    (material height : Nat) (mOut : Option Nat) : Graph × List String :=
  match mOut with
  | none => (g, [])
  | some mo =>
    match Graph.tryAddNode sup g displacementKinds "Height Displacement" with
    | (g0, none) => (g0, [])
    | (g0, some disp) =>
      match Graph.tryAddNode sup (dispFeedHeight g0 disp height)
          ["LuxCoreNodeShapeSubdiv"] "Subdivision" with
      | (g2, none) =>
        (setupDispFinal g2 disp mo, ["Error creating Subdivision node"])
      | (g2, some subdiv) =>
        (setupDispFinal (dispWireSubdiv g2 disp subdiv) disp mo, [])

/-- The multiply-node fallback chain of `setup_ao_multiply` /
`multiply_ao_with_color`. -/
def mathKinds : List String :=
  ["LuxCoreNodeTexMath", "LuxCoreNodeMath", "LuxCoreNodeTexMix",
   "LuxCoreNodeTexMixColor", "luxcore_tex_math", "luxcore_tex_mix"]

/-- Loop state while wiring the multiply node's inputs. -/
structure AoLoopSt where
  g : Graph
  colorConnected : Bool
  aoConnected : Bool
  deriving DecidableEq, Repr

/-- The first-input name test of `setup_ao_multiply`
(`'value1'/'input1'/'a'/'color1' in name or i == 0`). -/
def aoInCond1 (name : String) (i : Nat) : Bool :=
  containsSeq (lowerStr "value1") (lowerStr name)
  || containsSeq (lowerStr "input1") (lowerStr name)
  || containsSeq (lowerStr "a") (lowerStr name)
  || containsSeq (lowerStr "color1") (lowerStr name)
  || i == 0

/-- The second-input name test of `setup_ao_multiply`
(`'value2'/'input2'/'b'/'color2' in name or i == 1`). -/
def aoInCond2 (name : String) (i : Nat) : Bool :=
  containsSeq (lowerStr "value2") (lowerStr name)
  || containsSeq (lowerStr "input2") (lowerStr name)
  || containsSeq (lowerStr "b") (lowerStr name)
  || containsSeq (lowerStr "color2") (lowerStr name)
  || i == 1

/-- One iteration of `for i, input_socket in enumerate(math_node.inputs)`. -/
def aoMulLoopStep (colorOut : Option Port) (aoChannel : Port) (math : Nat)
    (st : AoLoopSt) (p : Nat × String) : AoLoopSt :=
  if !st.colorConnected && aoInCond1 p.2 p.1 then
    match colorOut with
    | some c => ⟨st.g.linksNew c ⟨math, p.2⟩, true, st.aoConnected⟩
    | none => st
  else if !st.aoConnected && aoInCond2 p.2 p.1 then
    ⟨st.g.linksNew aoChannel ⟨math, p.2⟩, st.colorConnected, true⟩
  else st

/-- Fallback of `setup_ao_multiply` when no multiply-node kind is available:
connect the color texture to Base Color directly. -/
def aoMulFallbackColor (g : Graph) (material color : Nat) : Graph :=
  match texColorOutput g color with
  | some c =>
    if (g.inputNames material).contains "Base Color" then
      g.linksNew c ⟨material, "Base Color"⟩
    else g
  | none => g

/-- The input-wiring loop of `setup_ao_multiply` over the multiply node's
enumerated inputs. -/
def aoMulLoop (g : Graph) (math : Nat) (colorOut : Option Port)
    (aoChannel : Port) : AoLoopSt :=
  ((g.inputNames math).enum).foldl
    (aoMulLoopStep colorOut aoChannel math) ⟨g, false, false⟩

/-- Post-loop fallback 1: color into `inputs[0]` when not yet connected. -/
def aoMulPost1 (st : AoLoopSt) (math : Nat) (colorOut : Option Port) :
    AoLoopSt :=
  if !st.colorConnected && 0 < (st.g.inputNames math).length then
    match colorOut with
    | some c =>
      AoLoopSt.mk (linkTo st.g (some c) (inputAt st.g math 0))
        true st.aoConnected
    | none => st
  else st

/-- Post-loop fallback 2: occlusion channel into `inputs[1]` when not yet
connected. -/
def aoMulPost2 (st : AoLoopSt) (math : Nat) (aoChannel : Port) : AoLoopSt :=
  if !st.aoConnected && 1 < (st.g.inputNames math).length then
    AoLoopSt.mk (linkTo st.g (some aoChannel) (inputAt st.g math 1))
      st.colorConnected true
  else st

/-- Final stage of `setup_ao_multiply`: multiply output into Base Color,
when both inputs were connected. -/
def aoMulConnectOut (st : AoLoopSt) (material math : Nat) :
    Graph × List String :=
  if st.colorConnected && st.aoConnected then
    if (st.g.outputNames math).isEmpty then (st.g, ["Math node has no output"])
    else
      if (st.g.inputNames material).contains "Base Color" then
        (linkTo st.g
          (match (st.g.outputNames math).find? (fun o =>
              containsSeq (lowerStr "value") (lowerStr o)
              || containsSeq (lowerStr "color") (lowerStr o)
              || containsSeq (lowerStr "result") (lowerStr o)) with
            | some o => some (Port.mk math o)
            | none => outputAt st.g math 0)
          (some ⟨material, "Base Color"⟩), [])
      else (st.g, ["Socket 'Base Color' not found in Disney node"])
  else (st.g, ["Cannot connect both textures to Math node"])

/-- `setup_ao_multiply` (connect operator): create one multiply node, wire
the color texture into its first input and the occlusion channel into its
second, then wire its output into the material's Base Color input.  When no
multiply node kind is available, fall back to a direct color connection. -/
def setupAoMultiply (sup : String → Bool) (g : Graph)
    (material color : Nat) (aoChannel : Port) : Graph × List String :=
  match Graph.tryAddNode sup g mathKinds "AO Multiply" with
  | (g0, none) =>
    (aoMulFallbackColor g0 material color,
     ["Math node not available. AO connection not possible."])
  | (g0, some math) =>
    aoMulConnectOut
      (aoMulPost2
        (aoMulPost1 (aoMulLoop g0 math (texColorOutput g0 color) aoChannel)
          math (texColorOutput g0 color))
        math aoChannel)
      material math

/-- The normal-map branch of the connect operator's second pass: locate the
Bump/Normal socket, wire the texture's color output into it directly (the
normal-map flag that is activated afterwards is a node field, not graph
structure). -/
def processNormal (g : Graph) (material tex : Nat) : Graph × Bool :=
  if (g.outputNames tex).isEmpty then (g, false)
  else
    match (findInputFromList g material ["Bump", "bump", "Normal", "normal"]).orElse
        (fun _ => findInputAnySub g material ["bump", "normal"]) with
    | none => (g, false)
    | some sock =>
      match texColorOutput g tex with
      | some c => (g.linksNew c sock, true)
      | none => (g, false)

/-- The `'socket'` field of each `texture_mapping` entry. -/
def texSocket : TexType → Option String
  | .color => some "Base Color"
  | .emission => some "Emission"
  | .normal => some "Bump"
  | .bump => some "Bump"
  | .metallic => some "Metallic"
  | .roughness => some "Roughness"
  | .specular => some "Specular"
  | .height => some "Height"
  | .opacity => some "Opacity"
  | .orm => none
  | .ors => none
  | .ao => none

/-- The generic direct-connection branch (`tex_info['socket'] in
material_node.inputs` → link texture color output into that socket). -/
def processGeneric (g : Graph) (material tex : Nat) (ty : TexType) :
    Graph × Bool :=
  match texSocket ty with
  | none => (g, false)
  | some sname =>
    if (g.inputNames material).contains sname then
      match texColorOutput g tex with
      | some c => (g.linksNew c ⟨material, sname⟩, true)
      | none => (g, false)
    else (g, false)

/-! ## The connect operator's second pass -/

/-- Running state of `connect_textures_to_material` (connect operator):
graph, covered roles, the special nodes remembered for the AO step, the
connected-count and the diagnostics printed on error paths. -/
structure ConnSt where
  g : Graph
  covered : List TexType
  colorNode : Option Nat
  aoNode : Option Nat
  ormNode : Option Nat
  orsNode : Option Nat
  ormAo : Option Port
  orsAo : Option Port
  count : Nat
  diags : List String
  deriving DecidableEq, Repr

/-- The roles a combined texture can suppress. -/
def suppressible : List TexType :=
  [.metallic, .roughness, .ao, .specular]

/-- One iteration of the connect operator's second pass over the classified
texture list (`luxcore_texture_connect.py`, lines 237–356). -/
def processTex (sup : String → Bool) (material : Nat) (mOut : Option Nat)
    (mapping : Option Nat) (st : ConnSt) (t : Nat × TexType) : ConnSt :=
  if suppressible.contains t.2 && st.covered.contains t.2 then st
  else
    let g0 :=
      match mapping with
      | some m => connectMappingToTexture st.g m t.1
      | none => st.g
    match t.2 with
    | .orm =>
      let r := setupCombinedTexture sup g0 material t.1 .orm
      { st with
        g := r.1
        covered := st.covered ++ [.metallic, .roughness, .ao]
        ormNode := some t.1
        ormAo := r.2.1
        count := st.count + (if r.2.1.isSome then 1 else 0)
        diags := st.diags ++ r.2.2 }
    | .ors =>
      let r := setupCombinedTexture sup g0 material t.1 .ors
      { st with
        g := r.1
        covered := st.covered ++ [.specular, .roughness, .ao]
        orsNode := some t.1
        orsAo := r.2.1
        count := st.count + (if r.2.1.isSome then 1 else 0)
        diags := st.diags ++ r.2.2 }
    | .color =>
      { st with
        g := g0
        covered := st.covered ++ [.color]
        colorNode := some t.1 }
    | .ao =>
      { st with
        g := g0, covered := st.covered ++ [.ao], aoNode := some t.1 }
    | .normal =>
      let r := processNormal g0 material t.1
      { st with
        g := r.1
        covered := st.covered ++ [.normal]
        count := st.count + (if r.2 then 1 else 0) }
    | .bump =>
      let r := setupBump sup g0 material t.1
      { st with
        g := r.1
        covered := st.covered ++ [.bump]
        count := st.count + (if r.2.1 then 1 else 0)
        diags := st.diags ++ r.2.2 }
    | .height =>
      let r := setupDisplacement sup g0 material t.1 mOut
      { st with
        g := r.1
        covered := st.covered ++ [.height]
        count := st.count + 1
        diags := st.diags ++ r.2 }
    | .emission =>
      let r := setupEmission sup g0 material t.1
      { st with
        g := r.1
        covered := st.covered ++ [.emission]
        count := st.count + (if r.2.1 then 1 else 0)
        diags := st.diags ++ r.2.2 }
    | .metallic =>
      let r := processGeneric g0 material t.1 .metallic
      { st with
        g := r.1
        covered := st.covered ++ [.metallic]
        count := st.count + (if r.2 then 1 else 0) }
    | .roughness =>
      let r := processGeneric g0 material t.1 .roughness
      { st with
        g := r.1
        covered := st.covered ++ [.roughness]
        count := st.count + (if r.2 then 1 else 0) }
    | .specular =>
      let r := processGeneric g0 material t.1 .specular
      { st with
        g := r.1
        covered := st.covered ++ [.specular]
        count := st.count + (if r.2 then 1 else 0) }
    | .opacity =>
      let r := processGeneric g0 material t.1 .opacity
      { st with
        g := r.1
        covered := st.covered ++ [.opacity]
        count := st.count + (if r.2 then 1 else 0) }

/-- The occlusion-channel selection after the second pass: a processed
standalone AO texture's output first, else the ORM splitter's channel R,
else the ORS splitter's channel R. -/
def selectAoChannel (st : ConnSt) : Option Port :=
  match st.aoNode with
  | some n =>
    if (st.g.outputNames n).isEmpty then (st.ormAo.orElse (fun _ => st.orsAo))
    else texColorOutput st.g n
  | none => st.ormAo.orElse (fun _ => st.orsAo)

/-- The final combine step: color and occlusion channel are multiplied; a
color texture alone connects directly to Base Color. -/
def connectFinal (sup : String → Bool) (material : Nat) (st : ConnSt) : ConnSt :=
  match st.colorNode, selectAoChannel st with
  | some c, some ch =>
    let r := setupAoMultiply sup st.g material c ch
    { st with
        g := r.1, count := st.count + 1, diags := st.diags ++ r.2 }
  | some c, none =>
    match texColorOutput st.g c with
    | some co =>
      if (st.g.inputNames material).contains "Base Color" then
        { st with
          g := st.g.linksNew co ⟨material, "Base Color"⟩
          count := st.count + 1 }
      else st
    | none => st
  | none, _ => st

/-- Stable insertion step for the descending-priority sort. -/
def insertDescBy {α : Type} (f : α → Int) (x : α) : List α → List α
  | [] => [x]
  | y :: ys => if f x < f y then y :: insertDescBy f x ys else x :: y :: ys

/-- Stable descending sort (`list.sort(key=..., reverse=True)`): elements of
equal priority keep their original relative order. -/
def sortDescBy {α : Type} (f : α → Int) (l : List α) : List α :=
  l.foldr (insertDescBy f) []

/-- The result of a connect-operator run: the final state and the occlusion
channel the AO step selected. -/
structure ConnResult where
  st : ConnSt
  aoChannel : Option Port
  deriving DecidableEq, Repr

/-- `connect_textures_to_material` (connect operator) from the
priority sort onwards, over an already-classified texture list. -/
def connectProcess (sup : String → Bool) (material : Nat) (mOut : Option Nat)
    (mapping : Option Nat) (l : List (Nat × TexType)) (g0 : Graph) :
    ConnResult :=
  let sorted := sortDescBy (fun t => connPriority t.2) l
  let st1 := sorted.foldl (processTex sup material mOut mapping)
    ⟨g0, [], none, none, none, none, none, none, 0, []⟩
  ⟨connectFinal sup material st1, selectAoChannel st1⟩

/-- A demonstration graph: the Disney material node (id 0) plus image
texture nodes with the given node/image names. -/
def demoGraph (texs : List (String × String)) : Graph :=
  { nodes := ⟨0, "LuxCoreNodeMatDisney", "Disney", ""⟩ ::
      (texs.enum.map (fun p => ⟨p.1 + 1, "LuxCoreNodeTexImagemap", p.2.1, p.2.2⟩)),
    edges := [], fresh := texs.length + 1 }

/-! ## Claim C2: coverage suppression -/

/-- C2.  A run whose assets classify as CombinedORM, Metallic and Roughness
(fed to the engine in arbitrary order, hence processed in descending
priority order after the stable sort): exactly one splitter node is created
— the only node created at all — the ORM texture feeds it and its G/B
channels reach Roughness/Metallic, while the suppressed Metallic and
Roughness textures contribute no node and no edge. -/
theorem c2_coverage_suppression :
    (connectProcess (fun _ => true) 0 none none
        [(2, TexType.metallic), (3, TexType.roughness), (1, TexType.orm)]
        (demoGraph [("wall_orm", ""), ("wall_metallic", ""), ("wall_roughness", "")])
      = connectProcess (fun _ => true) 0 none none
        [(1, TexType.orm), (2, TexType.metallic), (3, TexType.roughness)]
        (demoGraph [("wall_orm", ""), ("wall_metallic", ""), ("wall_roughness", "")]))
    ∧ ((connectProcess (fun _ => true) 0 none none
        [(2, TexType.metallic), (3, TexType.roughness), (1, TexType.orm)]
        (demoGraph [("wall_orm", ""), ("wall_metallic", ""), ("wall_roughness", "")])).st.g.nodes.filter
          (fun n => n.kind == "LuxCoreNodeTexSplitFloat3")).length = 1
    ∧ (connectProcess (fun _ => true) 0 none none
        [(2, TexType.metallic), (3, TexType.roughness), (1, TexType.orm)]
        (demoGraph [("wall_orm", ""), ("wall_metallic", ""), ("wall_roughness", "")])).st.g.nodes.length = 5
    ∧ (connectProcess (fun _ => true) 0 none none
        [(2, TexType.metallic), (3, TexType.roughness), (1, TexType.orm)]
        (demoGraph [("wall_orm", ""), ("wall_metallic", ""), ("wall_roughness", "")])).st.g.edges =
      [⟨⟨1, "Color"⟩, ⟨4, "Color"⟩⟩,
       ⟨⟨4, "G"⟩, ⟨0, "Roughness"⟩⟩,
       ⟨⟨4, "B"⟩, ⟨0, "Metallic"⟩⟩] := by
  refine ⟨by decide, by decide, by decide, by decide⟩

/-! ## Claim C3: the AO multiply combiner -/

/-- C3.  In a run with a BaseColor texture and an occlusion channel —
scenario A: a standalone Occlusion texture, with a pre-existing direct edge
into Base Color; scenario B: channel 0 of a CombinedORM splitter — exactly
one multiply node is created, the BaseColor source feeds combiner input 0,
the occlusion channel feeds input 1, the combiner output feeds the
"Base Color" port, and the pre-existing direct Base Color edge is gone. -/
theorem c3_ao_combine :
    (((connectProcess (fun _ => true) 0 none none
        [(1, TexType.color), (2, TexType.ao)]
        { demoGraph [("wall_color", ""), ("wall_ao", "")] with
          edges := [⟨⟨1, "Color"⟩, ⟨0, "Base Color"⟩⟩] }).st.g.nodes.filter
          (fun n => n.kind == "LuxCoreNodeTexMath")).length = 1
      ∧ (connectProcess (fun _ => true) 0 none none
        [(1, TexType.color), (2, TexType.ao)]
        { demoGraph [("wall_color", ""), ("wall_ao", "")] with
          edges := [⟨⟨1, "Color"⟩, ⟨0, "Base Color"⟩⟩] }).st.g.edges.filter
          (fun e => e.dst == Port.mk 0 "Base Color") =
        [⟨⟨3, "Value"⟩, ⟨0, "Base Color"⟩⟩]
      ∧ (connectProcess (fun _ => true) 0 none none
        [(1, TexType.color), (2, TexType.ao)]
        { demoGraph [("wall_color", ""), ("wall_ao", "")] with
          edges := [⟨⟨1, "Color"⟩, ⟨0, "Base Color"⟩⟩] }).st.g.edges.contains
          ⟨⟨1, "Color"⟩, ⟨3, "Value 1"⟩⟩ = true
      ∧ (connectProcess (fun _ => true) 0 none none
        [(1, TexType.color), (2, TexType.ao)]
        { demoGraph [("wall_color", ""), ("wall_ao", "")] with
          edges := [⟨⟨1, "Color"⟩, ⟨0, "Base Color"⟩⟩] }).st.g.edges.contains
          ⟨⟨2, "Color"⟩, ⟨3, "Value 2"⟩⟩ = true)
    ∧ (((connectProcess (fun _ => true) 0 none none
        [(1, TexType.color), (2, TexType.orm)]
        (demoGraph [("wall_color", ""), ("wall_orm", "")])).st.g.nodes.filter
          (fun n => n.kind == "LuxCoreNodeTexMath")).length = 1
      ∧ (connectProcess (fun _ => true) 0 none none
        [(1, TexType.color), (2, TexType.orm)]
        (demoGraph [("wall_color", ""), ("wall_orm", "")])).st.g.edges.filter
          (fun e => e.dst == Port.mk 0 "Base Color") =
        [⟨⟨4, "Value"⟩, ⟨0, "Base Color"⟩⟩]
      ∧ (connectProcess (fun _ => true) 0 none none
        [(1, TexType.color), (2, TexType.orm)]
        (demoGraph [("wall_color", ""), ("wall_orm", "")])).st.g.edges.contains
          ⟨⟨1, "Color"⟩, ⟨4, "Value 1"⟩⟩ = true
      ∧ (connectProcess (fun _ => true) 0 none none
        [(1, TexType.color), (2, TexType.orm)]
        (demoGraph [("wall_color", ""), ("wall_orm", "")])).st.g.edges.contains
          ⟨⟨3, "R"⟩, ⟨4, "Value 2"⟩⟩ = true) := by
  refine ⟨⟨by decide, by decide, by decide, by decide⟩,
    by decide, by decide, by decide, by decide⟩

/-! ## Claim C7: failure isolation and reporting -/

/-- C7, counterexample.  With the displacement chain's material-output node
unavailable (`material_output = None`), the Height asset's step creates no
node — `setup_displacement` returns immediately — yet no diagnostic is
recorded and the run still counts the Height asset as connected
(`connected_count` is incremented unconditionally): the failure is silently
swallowed, contradicting the claim that it "fails and is reported". -/
theorem c7_failure_counterexample :
    (connectProcess (fun _ => true) 0 none none
        [(1, TexType.height), (2, TexType.roughness), (3, TexType.metallic)]
        (demoGraph [("wall_height", ""), ("wall_roughness", ""), ("wall_metallic", "")])).st.count = 3
    ∧ (connectProcess (fun _ => true) 0 none none
        [(1, TexType.height), (2, TexType.roughness), (3, TexType.metallic)]
        (demoGraph [("wall_height", ""), ("wall_roughness", ""), ("wall_metallic", "")])).st.diags = []
    ∧ (connectProcess (fun _ => true) 0 none none
        [(1, TexType.height), (2, TexType.roughness), (3, TexType.metallic)]
        (demoGraph [("wall_height", ""), ("wall_roughness", ""), ("wall_metallic", "")])).st.g.nodes.length = 4 := by
  refine ⟨by decide, by decide, by decide⟩

/-- C7, amended.  Per-asset isolation does hold — with the material-output
node unavailable the Roughness and Metallic assets still connect to their
ports — but the Height asset's step fails *silently*: no displacement or
subdivision node is created, no diagnostic is recorded, and the asset is
nevertheless counted as connected (the count reports 3). -/
theorem c7_partial_failure_isolation :
    (connectProcess (fun _ => true) 0 none none
        [(1, TexType.height), (2, TexType.roughness), (3, TexType.metallic)]
        (demoGraph [("wall_height", ""), ("wall_roughness", ""), ("wall_metallic", "")])).st.g.edges =
      [⟨⟨3, "Color"⟩, ⟨0, "Metallic"⟩⟩, ⟨⟨2, "Color"⟩, ⟨0, "Roughness"⟩⟩]
    ∧ ((connectProcess (fun _ => true) 0 none none
        [(1, TexType.height), (2, TexType.roughness), (3, TexType.metallic)]
        (demoGraph [("wall_height", ""), ("wall_roughness", ""), ("wall_metallic", "")])).st.g.nodes.filter
          (fun n => displacementKinds.contains n.kind
            || n.kind == "LuxCoreNodeShapeSubdiv")).length = 0
    ∧ (connectProcess (fun _ => true) 0 none none
        [(1, TexType.height), (2, TexType.roughness), (3, TexType.metallic)]
        (demoGraph [("wall_height", ""), ("wall_roughness", ""), ("wall_metallic", "")])).st.diags = []
    ∧ (connectProcess (fun _ => true) 0 none none
        [(1, TexType.height), (2, TexType.roughness), (3, TexType.metallic)]
        (demoGraph [("wall_height", ""), ("wall_roughness", ""), ("wall_metallic", "")])).st.count = 3 := by
  refine ⟨by decide, by decide, by decide, by decide⟩

/-! ## Claim C10: dual combined textures and occlusion-channel choice -/

/-- C10, counterexample.  The claim's first selection tier says a
standalone AO texture's output is used first; here a standalone AO texture
(node 3) is present in the run, yet the occlusion channel selected is the
ORM splitter's channel R (node 4 is the ORM splitter), because a combined
texture marks ao as covered and the AO texture is skipped unprocessed. -/
theorem c10_ao_suppression_counterexample :
    (connectProcess (fun _ => true) 0 none none
        [(1, TexType.orm), (2, TexType.ors), (3, TexType.ao)]
        (demoGraph [("wall_orm", ""), ("wall_ors", ""), ("wall_ao", "")])).aoChannel =
      some ⟨4, "R"⟩
    ∧ ((connectProcess (fun _ => true) 0 none none
        [(1, TexType.orm), (2, TexType.ors), (3, TexType.ao)]
        (demoGraph [("wall_orm", ""), ("wall_ors", ""), ("wall_ao", "")])).st.g.nodes.filter
          (fun n => n.id == 4)) =
      [⟨4, "LuxCoreNodeTexSplitFloat3", "Split ORM", ""⟩] := by
  refine ⟨by decide, by decide⟩

/-- C10, amended.  When one run contains both a CombinedORM and a CombinedORS
texture, both are processed: each receives its own channel splitter, the
ORM's first (node id 3 before the ORS's id 4), and the occlusion channel
for the AO combine is the ORM splitter's channel 0 — also when a (then
suppressed) standalone AO texture is present.  The ORS splitter's channel 0
is selected only when neither a processed AO texture nor an ORM splitter
channel exists, and a processed standalone AO texture's own output comes
first. -/
theorem c10_dual_combined :
    ((connectProcess (fun _ => true) 0 none none
        [(1, TexType.orm), (2, TexType.ors)]
        (demoGraph [("wall_orm", ""), ("wall_ors", "")])).st.g.nodes.filter
          (fun n => n.kind == "LuxCoreNodeTexSplitFloat3") =
        [⟨3, "LuxCoreNodeTexSplitFloat3", "Split ORM", ""⟩,
         ⟨4, "LuxCoreNodeTexSplitFloat3", "Split ORS", ""⟩]
      ∧ (connectProcess (fun _ => true) 0 none none
        [(1, TexType.orm), (2, TexType.ors)]
        (demoGraph [("wall_orm", ""), ("wall_ors", "")])).st.g.edges.contains
          ⟨⟨1, "Color"⟩, ⟨3, "Color"⟩⟩ = true
      ∧ (connectProcess (fun _ => true) 0 none none
        [(1, TexType.orm), (2, TexType.ors)]
        (demoGraph [("wall_orm", ""), ("wall_ors", "")])).st.g.edges.contains
          ⟨⟨2, "Color"⟩, ⟨4, "Color"⟩⟩ = true
      ∧ (connectProcess (fun _ => true) 0 none none
        [(1, TexType.orm), (2, TexType.ors)]
        (demoGraph [("wall_orm", ""), ("wall_ors", "")])).aoChannel =
        some ⟨3, "R"⟩)
    ∧ (connectProcess (fun _ => true) 0 none none
        [(1, TexType.orm), (2, TexType.ors), (3, TexType.ao)]
        (demoGraph [("wall_orm", ""), ("wall_ors", ""), ("wall_ao", "")])).aoChannel =
      some ⟨4, "R"⟩
    ∧ (connectProcess (fun _ => true) 0 none none
        [(1, TexType.ors)] (demoGraph [("wall_ors", "")])).aoChannel =
      some ⟨2, "R"⟩
    ∧ (connectProcess (fun _ => true) 0 none none
        [(1, TexType.ao)] (demoGraph [("wall_ao", "")])).aoChannel =
      some ⟨1, "Color"⟩ := by
  refine ⟨⟨by decide, by decide, by decide, by decide⟩,
    by decide, by decide, by decide⟩

/-! ## Claim C4: the single-incoming-edge invariant -/

/-- Every destination port carries at most one incoming edge: no two edges
of the graph share a destination. -/
def uniqueDst (g : Graph) : Prop :=
  g.edges.Pairwise (fun e1 e2 => e1.dst ≠ e2.dst)

/-- A graph with the same edge list inherits the invariant. -/
theorem uniqueDst_of_edges_eq {g g' : Graph} (he : g'.edges = g.edges)
    (h : uniqueDst g) : uniqueDst g' := by
  unfold uniqueDst
  rw [he]
  exact h

theorem uniqueDst_linksNew (g : Graph) (s d : Port) (h : uniqueDst g) :
    uniqueDst (g.linksNew s d) := by
  unfold uniqueDst Graph.linksNew
  apply List.pairwise_append.mpr
  refine ⟨h.filter _, List.pairwise_singleton _ _, ?_⟩
  intro a ha b hb
  simp only [List.mem_singleton] at hb
  subst hb
  have := List.of_mem_filter ha
  simpa using this

theorem uniqueDst_removeFirst (g : Graph) (d : Port) (h : uniqueDst g) :
    uniqueDst (g.removeFirstEdgeTo d) := by
  unfold uniqueDst Graph.removeFirstEdgeTo
  exact List.Pairwise.sublist (List.eraseP_sublist _) h

theorem uniqueDst_linkTo (g : Graph) (s d : Option Port) (h : uniqueDst g) :
    uniqueDst (linkTo g s d) := by
  unfold linkTo
  cases s with
  | none => exact h
  | some s' =>
    cases d with
    | none => exact h
    | some d' => exact uniqueDst_linksNew g s' d' h

theorem tryAddNode_edges (sup : String → Bool) (g : Graph)
    (kinds : List String) (label : String) :
    (Graph.tryAddNode sup g kinds label).1.edges = g.edges := by
  unfold Graph.tryAddNode Graph.addNode
  split <;> rfl

theorem uniqueDst_splitFeed (g : Graph) (c s : Nat) (h : uniqueDst g) :
    uniqueDst (splitFeed g c s) :=
  uniqueDst_linkTo _ _ _ h

theorem uniqueDst_splitWireRoughness (g : Graph) (m s : Nat)
    (h : uniqueDst g) : uniqueDst (splitWireRoughness g m s) := by
  unfold splitWireRoughness
  split
  · exact uniqueDst_linkTo _ _ _ h
  · exact h

theorem uniqueDst_splitWireThird (g : Graph) (m s : Nat) (ty : TexType)
    (h : uniqueDst g) : uniqueDst (splitWireThird g m s ty) := by
  unfold splitWireThird
  split
  · split
    · exact uniqueDst_linkTo _ _ _ h
    · exact h
  · split
    · split
      · exact uniqueDst_linkTo _ _ _ h
      · exact h
    · exact h

theorem uniqueDst_setupCombined (sup : String → Bool) (g : Graph)
    (m c : Nat) (ty : TexType) (h : uniqueDst g) :
    uniqueDst (setupCombinedTexture sup g m c ty).1 := by
  unfold setupCombinedTexture
  have hedges := tryAddNode_edges sup g ["LuxCoreNodeTexSplitFloat3"]
    (if ty = TexType.orm then "Split ORM" else "Split ORS")
  split
  next g0 heq =>
    rw [heq] at hedges
    exact uniqueDst_of_edges_eq hedges h
  next g0 split0 heq =>
    rw [heq] at hedges
    have h0 := uniqueDst_of_edges_eq hedges h
    exact uniqueDst_splitWireThird _ _ _ _
      (uniqueDst_splitWireRoughness _ _ _ (uniqueDst_splitFeed _ _ _ h0))

theorem uniqueDst_connectMapping (g : Graph) (m tex : Nat)
    (h : uniqueDst g) : uniqueDst (connectMappingToTexture g m tex) := by
  unfold connectMappingToTexture
  split
  · exact h
  · split
    · split
      · exact uniqueDst_linksNew _ _ _ h
      · exact h
    · split
      · split
        · exact uniqueDst_linkTo _ _ _ h
        · exact h
      · exact h

theorem uniqueDst_setupEmissionFinish (g : Graph) (m em : Nat)
    (h : uniqueDst g) : uniqueDst (setupEmissionFinish g m em).1 := by
  unfold setupEmissionFinish
  split
  · exact h
  · split
    · exact uniqueDst_linksNew _ _ _ h
    · split
      · exact uniqueDst_linksNew _ _ _ h
      · exact h

theorem uniqueDst_setupEmission (sup : String → Bool) (g : Graph)
    (m tex : Nat) (h : uniqueDst g) :
    uniqueDst (setupEmission sup g m tex).1 := by
  unfold setupEmission
  have hedges := tryAddNode_edges sup g ["LuxCoreNodeMatEmission"] "Emission"
  split
  next g0 heq =>
    rw [heq] at hedges
    exact uniqueDst_of_edges_eq hedges h
  next g0 em heq =>
    rw [heq] at hedges
    have h0 := uniqueDst_of_edges_eq hedges h
    split
    · exact uniqueDst_setupEmissionFinish _ _ _ h0
    · split
      · exact h0
      · exact uniqueDst_setupEmissionFinish _ _ _ (uniqueDst_linksNew _ _ _ h0)

theorem uniqueDst_setupBumpFinish (g : Graph) (m bump : Nat)
    (h : uniqueDst g) : uniqueDst (setupBumpFinish g m bump).1 := by
  unfold setupBumpFinish
  split
  · exact h
  · repeat' split
    all_goals
      first
        | exact uniqueDst_linksNew _ _ _ h
        | exact h

theorem uniqueDst_setupBump (sup : String → Bool) (g : Graph)
    (m tex : Nat) (h : uniqueDst g) :
    uniqueDst (setupBump sup g m tex).1 := by
  unfold setupBump
  have hedges := tryAddNode_edges sup g ["LuxCoreNodeTexBump"] "Bump"
  split
  next g0 heq =>
    rw [heq] at hedges
    exact uniqueDst_of_edges_eq hedges h
  next g0 bump heq =>
    rw [heq] at hedges
    have h0 := uniqueDst_of_edges_eq hedges h
    split
    · exact uniqueDst_setupBumpFinish _ _ _ h0
    · split
      · exact h0
      · exact uniqueDst_setupBumpFinish _ _ _ (uniqueDst_linksNew _ _ _ h0)

theorem uniqueDst_setupDispFinal (g : Graph) (disp mo : Nat)
    (h : uniqueDst g) : uniqueDst (setupDispFinal g disp mo) := by
  unfold setupDispFinal
  split
  · exact h
  · split
    · exact h
    · exact uniqueDst_linkTo _ _ _ h

theorem uniqueDst_dispFeedHeight (g : Graph) (disp height : Nat)
    (h : uniqueDst g) : uniqueDst (dispFeedHeight g disp height) := by
  unfold dispFeedHeight
  split
  · exact uniqueDst_linkTo _ _ _ h
  · exact h

theorem uniqueDst_dispWireSubdiv (g : Graph) (disp subdiv : Nat)
    (h : uniqueDst g) : uniqueDst (dispWireSubdiv g disp subdiv) := by
  unfold dispWireSubdiv
  split
  · exact h
  · exact uniqueDst_linkTo _ _ _ h

theorem uniqueDst_setupDisplacement (sup : String → Bool) (g : Graph)
    (m height : Nat) (mOut : Option Nat) (h : uniqueDst g) :
    uniqueDst (setupDisplacement sup g m height mOut).1 := by
  unfold setupDisplacement
  split
  · exact h
  next mo =>
    have hedges := tryAddNode_edges sup g displacementKinds "Height Displacement"
    split
    next g0 heq =>
      rw [heq] at hedges
      exact uniqueDst_of_edges_eq hedges h
    next g0 disp heq =>
      rw [heq] at hedges
      have h0 := uniqueDst_of_edges_eq hedges h
      have h1 := uniqueDst_dispFeedHeight g0 disp height h0
      have hedges2 := tryAddNode_edges sup (dispFeedHeight g0 disp height)
        ["LuxCoreNodeShapeSubdiv"] "Subdivision"
      split
      next g2 heq2 =>
        rw [heq2] at hedges2
        exact uniqueDst_setupDispFinal _ _ _ (uniqueDst_of_edges_eq hedges2 h1)
      next g2 subdiv heq2 =>
        rw [heq2] at hedges2
        exact uniqueDst_setupDispFinal _ _ _
          (uniqueDst_dispWireSubdiv _ _ _ (uniqueDst_of_edges_eq hedges2 h1))

theorem uniqueDst_aoMulLoopStep (colorOut : Option Port) (aoChannel : Port)
    (math : Nat) (st : AoLoopSt) (p : Nat × String)
    (h : uniqueDst st.g) :
    uniqueDst (aoMulLoopStep colorOut aoChannel math st p).g := by
  unfold aoMulLoopStep
  split
  · split
    · exact uniqueDst_linksNew _ _ _ h
    · exact h
  · split
    · exact uniqueDst_linksNew _ _ _ h
    · exact h

/-- A predicate preserved by every step of a fold is preserved by the
fold. -/
theorem foldl_preserve {α σ : Type} (P : σ → Prop) (f : σ → α → σ)
    (hf : ∀ s a, P s → P (f s a)) :
    ∀ (l : List α) (s : σ), P s → P (l.foldl f s) := by
  intro l
  induction l with
  | nil => intro s h; exact h
  | cons a l ih =>
    intro s h
    exact ih _ (hf s a h)

theorem uniqueDst_aoMulLoop (g : Graph) (math : Nat)
    (colorOut : Option Port) (aoChannel : Port) (h : uniqueDst g) :
    uniqueDst (aoMulLoop g math colorOut aoChannel).g := by
  unfold aoMulLoop
  exact foldl_preserve (fun st => uniqueDst st.g) _
    (fun st p hh => uniqueDst_aoMulLoopStep colorOut aoChannel math st p hh)
    ((g.inputNames math).enum) ⟨g, false, false⟩ h

theorem uniqueDst_aoMulPost1 (st : AoLoopSt) (math : Nat)
    (colorOut : Option Port) (h : uniqueDst st.g) :
    uniqueDst (aoMulPost1 st math colorOut).g := by
  unfold aoMulPost1
  split
  · split
    · exact uniqueDst_linkTo _ _ _ h
    · exact h
  · exact h

theorem uniqueDst_aoMulPost2 (st : AoLoopSt) (math : Nat) (aoChannel : Port)
    (h : uniqueDst st.g) : uniqueDst (aoMulPost2 st math aoChannel).g := by
  unfold aoMulPost2
  split
  · exact uniqueDst_linkTo _ _ _ h
  · exact h

theorem uniqueDst_aoMulConnectOut (st : AoLoopSt) (m math : Nat)
    (h : uniqueDst st.g) : uniqueDst (aoMulConnectOut st m math).1 := by
  unfold aoMulConnectOut
  split
  · split
    · exact h
    · split
      · exact uniqueDst_linkTo _ _ _ h
      · exact h
  · exact h

theorem uniqueDst_aoMulFallbackColor (g : Graph) (m c : Nat)
    (h : uniqueDst g) : uniqueDst (aoMulFallbackColor g m c) := by
  unfold aoMulFallbackColor
  split
  · split
    · exact uniqueDst_linksNew _ _ _ h
    · exact h
  · exact h

theorem uniqueDst_setupAoMultiply (sup : String → Bool) (g : Graph)
    (m c : Nat) (aoChannel : Port) (h : uniqueDst g) :
    uniqueDst (setupAoMultiply sup g m c aoChannel).1 := by
  unfold setupAoMultiply
  have hedges := tryAddNode_edges sup g mathKinds "AO Multiply"
  split
  next g0 heq =>
    rw [heq] at hedges
    exact uniqueDst_aoMulFallbackColor _ _ _ (uniqueDst_of_edges_eq hedges h)
  next g0 math heq =>
    rw [heq] at hedges
    have h0 := uniqueDst_of_edges_eq hedges h
    exact uniqueDst_aoMulConnectOut _ _ _
      (uniqueDst_aoMulPost2 _ _ _
        (uniqueDst_aoMulPost1 _ _ _ (uniqueDst_aoMulLoop _ _ _ _ h0)))

theorem uniqueDst_processNormal (g : Graph) (m tex : Nat)
    (h : uniqueDst g) : uniqueDst (processNormal g m tex).1 := by
  unfold processNormal
  split
  · exact h
  · split
    · exact h
    · split
      · exact uniqueDst_linksNew _ _ _ h
      · exact h

theorem uniqueDst_processGeneric (g : Graph) (m tex : Nat) (ty : TexType)
    (h : uniqueDst g) : uniqueDst (processGeneric g m tex ty).1 := by
  unfold processGeneric
  split
  · exact h
  · split
    · split
      · exact uniqueDst_linksNew _ _ _ h
      · exact h
    · exact h

theorem uniqueDst_processTex (sup : String → Bool) (material : Nat)
    (mOut mapping : Option Nat) (st : ConnSt) (t : Nat × TexType)
    (h : uniqueDst st.g) :
    uniqueDst (processTex sup material mOut mapping st t).g := by
  obtain ⟨nid, ty⟩ := t
  cases mapping with
  | none =>
    unfold processTex
    split
    · exact h
    · cases ty with
      | orm => exact uniqueDst_setupCombined _ _ _ _ _ h
      | ors => exact uniqueDst_setupCombined _ _ _ _ _ h
      | emission => exact uniqueDst_setupEmission _ _ _ _ h
      | color => exact h
      | normal => exact uniqueDst_processNormal _ _ _ h
      | bump => exact uniqueDst_setupBump _ _ _ _ h
      | metallic => exact uniqueDst_processGeneric _ _ _ _ h
      | roughness => exact uniqueDst_processGeneric _ _ _ _ h
      | specular => exact uniqueDst_processGeneric _ _ _ _ h
      | height => exact uniqueDst_setupDisplacement _ _ _ _ _ h
      | opacity => exact uniqueDst_processGeneric _ _ _ _ h
      | ao => exact h
  | some m =>
    have h0 := uniqueDst_connectMapping st.g m nid h
    unfold processTex
    split
    · exact h
    · cases ty with
      | orm => exact uniqueDst_setupCombined _ _ _ _ _ h0
      | ors => exact uniqueDst_setupCombined _ _ _ _ _ h0
      | emission => exact uniqueDst_setupEmission _ _ _ _ h0
      | color => exact h0
      | normal => exact uniqueDst_processNormal _ _ _ h0
      | bump => exact uniqueDst_setupBump _ _ _ _ h0
      | metallic => exact uniqueDst_processGeneric _ _ _ _ h0
      | roughness => exact uniqueDst_processGeneric _ _ _ _ h0
      | specular => exact uniqueDst_processGeneric _ _ _ _ h0
      | height => exact uniqueDst_setupDisplacement _ _ _ _ _ h0
      | opacity => exact uniqueDst_processGeneric _ _ _ _ h0
      | ao => exact h0

theorem uniqueDst_connectFinal (sup : String → Bool) (material : Nat)
    (st : ConnSt) (h : uniqueDst st.g) :
    uniqueDst (connectFinal sup material st).g := by
  unfold connectFinal
  split
  · exact uniqueDst_setupAoMultiply _ _ _ _ _ h
  · split
    · split
      · exact uniqueDst_linksNew _ _ _ h
      · exact h
    · exact h
  · exact h

/-- C4.  After any run of the synthesis engine — any classified texture
list, any host-support predicate, any mapping/material-output configuration
— over any starting graph satisfying the single-incoming-edge invariant,
every destination port still carries at most one incoming edge: each
`links.new` removes the edges already ending at its destination port. -/
theorem c4_single_destination (sup : String → Bool) (material : Nat)
    (mOut mapping : Option Nat) (l : List (Nat × TexType)) (g0 : Graph)
    (h : uniqueDst g0) :
    uniqueDst (connectProcess sup material mOut mapping l g0).st.g := by
  unfold connectProcess
  apply uniqueDst_connectFinal
  exact foldl_preserve (fun st => uniqueDst st.g) _
    (fun st t hh => uniqueDst_processTex sup material mOut mapping st t hh)
    (sortDescBy (fun t => connPriority t.2) l)
    ⟨g0, [], none, none, none, none, none, none, 0, []⟩ h

/-- C4, witness: a concrete run (BaseColor + CombinedORM + Normal over a
graph that already has an edge into Base Color) keeps the invariant. -/
theorem c4_single_destination_witness :
    uniqueDst { demoGraph [("wall_basecolor", ""), ("wall_orm", ""),
        ("wall_normal", "")] with
      edges := [⟨⟨1, "Color"⟩, ⟨0, "Base Color"⟩⟩] }
    ∧ uniqueDst (connectProcess (fun _ => true) 0 none none
        [(1, TexType.color), (2, TexType.orm), (3, TexType.normal)]
        { demoGraph [("wall_basecolor", ""), ("wall_orm", ""),
            ("wall_normal", "")] with
          edges := [⟨⟨1, "Color"⟩, ⟨0, "Base Color"⟩⟩] }).st.g :=
  ⟨by unfold uniqueDst; decide, c4_single_destination (fun _ => true) 0 none none
    [(1, TexType.color), (2, TexType.orm), (3, TexType.normal)]
    { demoGraph [("wall_basecolor", ""), ("wall_orm", ""),
        ("wall_normal", "")] with
      edges := [⟨⟨1, "Color"⟩, ⟨0, "Base Color"⟩⟩] } (by unfold uniqueDst; decide)⟩

/-! ## The extractor's AO combine (`luxcore_texture_extractor.py`,
`multiply_ao_with_color` and the AO stage of its
`connect_textures_to_material`; `luxcore_connect_selected.py` carries an
identical copy of `multiply_ao_with_color`) -/

/-- Tail of `multiply_ao_with_color` once the multiply node exists and the
color output (texture or white constant) is determined: color into
`inputs[0]`, occlusion channel into `inputs[1]`, then the multiply output
into Base Color after removing the first existing link into it. -/
def extMulRest (g : Graph) (material mul : Nat) (colorOut : Option Port)
    (aoChannel : Port) : Graph × Bool :=
  let g1 :=
    match colorOut with
    | some c =>
      if 0 < (g.inputNames mul).length then linkTo g (some c) (inputAt g mul 0)
      else g
    | none => g
  let g2 :=
    if 1 < (g1.inputNames mul).length then
      linkTo g1 (some aoChannel) (inputAt g1 mul 1)
    else g1
  if !(g2.outputNames mul).isEmpty
      && (g2.inputNames material).contains "Base Color" then
    match (match (g2.outputNames mul).find? (fun o =>
        ["color", "value", "result"].contains (String.mk (lowerStr o))) with
      | some o => some (Port.mk mul o)
      | none => outputAt g2 mul 0) with
    | some o =>
      ((g2.removeFirstEdgeTo ⟨material, "Base Color"⟩).linksNew o
        ⟨material, "Base Color"⟩, true)
    | none => (g2, false)
  else (g2, false)

/-- `multiply_ao_with_color` (extractor / connect-selected): multiply the
color texture — or, when no color texture exists, a freshly created
constant-white source — with the occlusion channel and wire the product
into Base Color. -/
def extMultiplyAoWithColor (sup : String → Bool) (g : Graph)
    (material : Nat) (colorNode : Option Nat) (aoChannel : Port) :
    Graph × Bool :=
  match Graph.tryAddNode sup g mathKinds "AO Multiply" with
  | (g0, none) => (g0, false)
  | (g0, some mul) =>
    match colorNode.bind (fun c => texColorOutput g0 c) with
    | some cOut => extMulRest g0 material mul (some cOut) aoChannel
    | none =>
      match Graph.tryAddNode sup g0 ["LuxCoreNodeTexConstantFloat3"] "White" with
      | (g1, none) => (g1, false)
      | (g1, some w) => extMulRest g1 material mul (outputAt g1 w 0) aoChannel

/-- The color keywords of the extractor's fallback scan for a color texture
to multiply with (lines 1014 of the source). -/
def extractorColorKeywords : List String :=
  ["color", "diff", "diffuse", "albedo", "basecolor", "col", "base"]

/-- The extractor's fallback scan: any image texture node other than the
AO/ORM/ORS nodes whose name or image name boundary-matches a color
keyword. -/
def extractorColorScan (g : Graph) (aoN ormN orsN : Option Nat) :
    Option Nat :=
  (g.nodes.find? (fun n =>
    ["LuxCoreNodeTexImagemap", "LuxCoreNodeTexImage",
      "ShaderNodeTexImage"].contains n.kind
    && !(aoN == some n.id) && !(ormN == some n.id) && !(orsN == some n.id)
    && extractorColorKeywords.any (fun kw =>
        boundarySearch (lowerStr kw) none
          (lowerStr n.name ++ [' '] ++ lowerStr n.image)))).map
    (fun n => n.id)

/-- The AO stage of the extractor's `connect_textures_to_material` (lines
976–1048, UV-mapping connections aside): select the occlusion channel
(processed standalone AO texture first, else ORM channel R, else ORS
channel R); when one exists, multiply it with the color texture — found
directly or by the fallback scan — and otherwise connect a color texture
directly. -/
def extractorAoStage (sup : String → Bool) (g : Graph) (material : Nat)
    (aoTexNode colorTexNode ormNode orsNode : Option Nat)
    (ormAo orsAo : Option Port) : Graph × Bool :=
  match
    (match aoTexNode with
      | some n =>
        if (g.outputNames n).isEmpty then ormAo.orElse (fun _ => orsAo)
        else texColorOutput g n
      | none => ormAo.orElse (fun _ => orsAo)) with
  | some ch =>
    extMultiplyAoWithColor sup g material
      (colorTexNode.orElse (fun _ => extractorColorScan g aoTexNode ormNode orsNode))
      ch
  | none =>
    match colorTexNode with
    | some c =>
      match texColorOutput g c with
      | some co =>
        if (g.inputNames material).contains "Base Color" then
          (g.linksNew co ⟨material, "Base Color"⟩, true)
        else (g, false)
      | none => (g, false)
    | none => (g, false)

/-! ## Claim C6: AO without BaseColor -/

/-- C6, counterexample.  The claim states that with an occlusion channel
but no BaseColor texture, synthesis does not substitute a constant-white
source and leaves Base Color unconnected.  The extractor's AO stage over a
graph holding only a standalone AO texture does the opposite: it creates a
constant-white node, feeds it into the combiner's input 0, and wires the
combiner into Base Color. -/
theorem c6_white_counterexample :
    ((extractorAoStage (fun _ => true) (demoGraph [("wall_ao", "")]) 0
        (some 1) none none none none none).1.nodes.filter
        (fun n => n.kind == "LuxCoreNodeTexConstantFloat3")).length = 1
    ∧ (extractorAoStage (fun _ => true) (demoGraph [("wall_ao", "")]) 0
        (some 1) none none none none none).1.edges.contains
        ⟨⟨3, "Color"⟩, ⟨2, "Value 1"⟩⟩ = true
    ∧ (extractorAoStage (fun _ => true) (demoGraph [("wall_ao", "")]) 0
        (some 1) none none none none none).1.edges.filter
        (fun e => e.dst == Port.mk 0 "Base Color") =
      [⟨⟨2, "Value"⟩, ⟨0, "Base Color"⟩⟩] := by
  refine ⟨by decide, by decide, by decide⟩

/-- C6, amended.  When an occlusion channel exists in a run but no
BaseColor texture does, the *extractor* substitutes a constant-white source
for combiner input 0 — wiring the occlusion channel into input 1 and the
combiner output into Base Color, which does not stay unconnected — while
the *connect-existing-textures* operator creates no combiner at all in this
case and leaves Base Color unconnected. -/
theorem c6_ao_without_basecolor :
    ((extractorAoStage (fun _ => true) (demoGraph [("wall_ao", "")]) 0
        (some 1) none none none none none).1.nodes.filter
        (fun n => n.kind == "LuxCoreNodeTexConstantFloat3") =
      [⟨3, "LuxCoreNodeTexConstantFloat3", "White", ""⟩]
      ∧ (extractorAoStage (fun _ => true) (demoGraph [("wall_ao", "")]) 0
          (some 1) none none none none none).1.edges =
        [⟨⟨3, "Color"⟩, ⟨2, "Value 1"⟩⟩,
         ⟨⟨1, "Color"⟩, ⟨2, "Value 2"⟩⟩,
         ⟨⟨2, "Value"⟩, ⟨0, "Base Color"⟩⟩]
      ∧ (extractorAoStage (fun _ => true) (demoGraph [("wall_ao", "")]) 0
          (some 1) none none none none none).2 = true)
    ∧ ((connectProcess (fun _ => true) 0 none none [(1, TexType.ao)]
        (demoGraph [("wall_ao", "")])).st.g.edges = []
      ∧ (connectProcess (fun _ => true) 0 none none [(1, TexType.ao)]
        (demoGraph [("wall_ao", "")])).st.g.nodes.length = 2
      ∧ (connectProcess (fun _ => true) 0 none none [(1, TexType.ao)]
        (demoGraph [("wall_ao", "")])).aoChannel = some ⟨1, "Color"⟩) := by
  refine ⟨⟨by decide, by decide, by decide⟩, by decide, by decide, by decide⟩

/-! ## Value transfer (`luxcore_texture_extractor.py`,
`extract_principled_values` / `apply_principled_values_to_disney`)

Socket resting values are rationals; a Principled source socket is a name
with a linked flag and a scalar or RGBA color value; a Disney input socket
additionally has a 1-, 3- or 4-component value slot. -/

/-- A Principled BSDF socket resting value. -/
inductive PVal
  | pscalar (v : ℚ)
  | pcolor (r g b a : ℚ)
  deriving DecidableEq, Repr

/-- A value extracted into the transfer dictionary: scalars, or colors cut
to RGB (`tuple(default_value[:3])`). -/
inductive EVal
  | escalar (v : ℚ)
  | ecolor (r g b : ℚ)
  deriving DecidableEq, Repr

/-- The Principled node: named input sockets with `is_linked` flag and
resting value. -/
abbrev Principled : Type := List (String × Bool × PVal)

def plookup (P : Principled) (name : String) : Option (Bool × PVal) :=
  (P.find? (fun x => x.1 == name)).map (fun x => x.2)

/-- One entry of the `value_mapping` table. -/
structure VMap where
  src : String
  dst : String
  invert : Bool
  isColor : Bool
  deriving DecidableEq, Repr

/-- The `value_mapping` table (dictionary insertion order preserved). -/
def valueMapping : List VMap :=
  [ ⟨"Base Color", "Base Color", false, true⟩,
    ⟨"Metallic", "Metallic", false, false⟩,
    ⟨"Roughness", "Roughness", false, false⟩,
    ⟨"Specular IOR Level", "Specular", false, false⟩,
    ⟨"Specular", "Specular", false, false⟩,
    ⟨"Sheen Weight", "Sheen", false, false⟩,
    ⟨"Sheen", "Sheen", false, false⟩,
    ⟨"Sheen Tint", "Sheen Tint", false, false⟩,
    ⟨"Coat Weight", "Clearcoat", false, false⟩,
    ⟨"Clearcoat", "Clearcoat", false, false⟩,
    ⟨"Coat Roughness", "Clearcoat Gloss", true, false⟩,
    ⟨"Clearcoat Roughness", "Clearcoat Gloss", true, false⟩,
    ⟨"Alpha", "Opacity", false, false⟩,
    ⟨"Emission Color", "Emission Color", false, true⟩,
    ⟨"Emission Strength", "Emission Strength", false, false⟩ ]

/-- The transfer dictionary, insertion-ordered with unique keys. -/
abbrev Dict : Type := List (String × EVal)

def dlookup : Dict → String → Option EVal
  | [], _ => none
  | p :: d, k => if p.1 == k then some p.2 else dlookup d k

/-- Python dict assignment `values[k] = v`: replace in place, else append. -/
def dinsert : Dict → String → EVal → Dict
  | [], k, v => [(k, v)]
  | p :: d, k, v => if p.1 == k then (k, v) :: d else p :: dinsert d k v

/-- The body of one `extract_principled_values` iteration, once the source
socket (if any) is known: skip absent or texture-linked sources; colors
keep RGB only; scalars are inverted (`1 - v`) when the mapping says so.
A color-flagged mapping over a scalar value stores nothing, and `float()`
over a color raises and is caught, also storing nothing. -/
def extractEntryVal (d : Dict) (m : VMap) : Option (Bool × PVal) → Dict
  | none => d
  | some (true, _) => d
  | some (false, PVal.pcolor r g b _) =>
    if m.isColor then dinsert d m.dst (EVal.ecolor r g b) else d
  | some (false, PVal.pscalar s) =>
    if m.isColor then d
    else dinsert d m.dst (EVal.escalar (if m.invert then 1 - s else s))

/-- One iteration of `extract_principled_values`. -/
def extractEntry (P : Principled) (d : Dict) (m : VMap) : Dict :=
  extractEntryVal d m (plookup P m.src)

/-- `extract_principled_values`. -/
def extractPrincipledValues (P : Principled) : Dict :=
  valueMapping.foldl (extractEntry P) []

/-- A Disney input socket value slot. -/
inductive SVal
  | sf (v : ℚ)
  | sv3 (r g b : ℚ)
  | sv4 (r g b a : ℚ)
  deriving DecidableEq, Repr

/-- A Disney input socket: name, linked flag and value slot. -/
structure DSock where
  name : String
  linked : Bool
  val : SVal
  deriving DecidableEq, Repr

/-- The Disney node's input sockets. -/
abbrev Disney : Type := List DSock

def dget : Disney → String → Option DSock
  | [], _ => none
  | s :: D, k => if s.name == k then some s else dget D k

/-- `get_alternative_socket_names`. -/
def altNames : String → List String
  | "Base Color" => ["BaseColor", "Diffuse Color", "Color", "Diffuse"]
  | "Metallic" => ["Metal", "Metallicness"]
  | "Roughness" => ["Rough", "Glossiness"]
  | "Specular" => ["Spec", "Specular Level", "Reflection"]
  | "Sheen" => ["Sheen Weight", "SheenAmount"]
  | "Sheen Tint" => ["SheenTint", "Sheen Color"]
  | "Clearcoat" => ["Coat", "Clear Coat", "ClearCoat", "Coat Weight"]
  | "Clearcoat Gloss" => ["Coat Gloss", "ClearCoatGloss", "Clearcoat Roughness"]
  | "Opacity" => ["Alpha", "Transparency"]
  | _ => []

/-- The target-socket resolution chain of
`apply_principled_values_to_disney`: exact name, then alternative names,
then per-socket case-insensitive equality or two-way substring
containment against the alternatives and the name itself. -/
def findTargetName (D : Disney) (key : String) : Option String :=
  if D.any (fun s => s.name == key) then some key
  else
    match (altNames key).find? (fun a => D.any (fun s => s.name == a)) with
    | some a => some a
    | none =>
      (D.find? (fun inp =>
        lowerStr inp.name == lowerStr key
        || ((altNames key) ++ [key]).any (fun alt =>
            containsSeq (lowerStr alt) (lowerStr inp.name)
            || containsSeq (lowerStr inp.name) (lowerStr alt)))).map
        (fun inp => inp.name)

/-- Writing an extracted value into a socket slot: colors set RGB and force
the fourth component to 1.0 on 4-component slots, copy RGB on 3-component
slots and fall back to the first component on scalar slots; a scalar into a
color slot raises in the host and is caught, writing nothing. -/
def writeVal : SVal → EVal → Option SVal
  | SVal.sv4 _ _ _ _, EVal.ecolor r g b => some (SVal.sv4 r g b 1)
  | SVal.sv3 _ _ _, EVal.ecolor r g b => some (SVal.sv3 r g b)
  | SVal.sf _, EVal.ecolor r _ _ => some (SVal.sf r)
  | SVal.sf _, EVal.escalar v => some (SVal.sf v)
  | _, EVal.escalar _ => none

def updateSock (D : Disney) (t : String) (v : SVal) : Disney :=
  D.map (fun s => if s.name == t then { s with val := v } else s)

/-- Apply step once the resolved target socket (if any) is known: a target
already carrying a connection is skipped; otherwise the value is written. -/
def applyOneSock (D : Disney) (e : EVal) (t : String) :
    Option DSock → Disney × Nat
  | none => (D, 0)
  | some sock =>
    if sock.linked then (D, 0)
    else
      match writeVal sock.val e with
      | some v => (updateSock D t v, 1)
      | none => (D, 0)

/-- Apply step once the target name resolution is known. -/
def applyOneTarget (D : Disney) (e : EVal) : Option String → Disney × Nat
  | none => (D, 0)
  | some t => applyOneSock D e t (dget D t)

/-- One iteration of the apply loop: emission keys are handled separately;
a resolved target already carrying a connection is skipped. -/
def applyOne (D : Disney) (kv : String × EVal) : Disney × Nat :=
  if kv.1 == "Emission Color" || kv.1 == "Emission Strength" then (D, 0)
  else applyOneTarget D kv.2 (findTargetName D kv.1)

/-- The emission validity test of `apply_principled_values_to_disney`:
some channel of the resolved emission color strictly exceeds the fixed
0.001 threshold, and — when an emission-strength value is available — that
strength is strictly positive. -/
def hasValidEmission (ec es : Option EVal) : Bool :=
  match ec with
  | some (EVal.ecolor r g b) =>
    if r > 1/1000 ∨ g > 1/1000 ∨ b > 1/1000 then
      match es with
      | some (EVal.escalar s) => decide (s > 0)
      | some (EVal.ecolor _ _ _) => false
      | none => true
    else false
  | _ => false

/-- The Emission input lookup of `create_emission_from_values`: exact name
first, then the first input containing `emission`. -/
def emissionEdgeTarget (D : Disney) : Option String :=
  if D.any (fun s => s.name == "Emission") then some "Emission"
  else
    (D.find? (fun s =>
      containsSeq (lowerStr "emission") (lowerStr s.name))).map
      (fun s => s.name)

/-- Result of `apply_principled_values_to_disney`: the updated node, the
applied count, whether the emission converter node was created and, when
the Emission edge was made, its destination input. -/
structure ApplyResult where
  disney : Disney
  applied : Nat
  emissionNodeCreated : Bool
  emissionEdge : Option String
  deriving DecidableEq, Repr

/-- `apply_principled_values_to_disney` over an extracted dictionary. -/
def applyPrincipledValues (vals : Dict) (D : Disney) : ApplyResult :=
  let hv := hasValidEmission (dlookup vals "Emission Color")
    (dlookup vals "Emission Strength")
  let edge := if hv then emissionEdgeTarget D else none
  let r := vals.foldl
    (fun st kv =>
      let r1 := applyOne st.1 kv
      (r1.1, st.2 + r1.2))
    (D, (if hv && edge.isSome then 1 else 0))
  ⟨r.1, r.2, hv, edge⟩

/-! ## Claim C8: value-transfer skip conditions and transforms -/

theorem dlookup_dinsert_sound :
    ∀ (d : Dict) (k0 : String) (v : EVal) (k : String) (e : EVal),
      dlookup (dinsert d k0 v) k = some e →
      (k = k0 ∧ e = v) ∨ dlookup d k = some e := by
  intro d
  induction d with
  | nil =>
    intro k0 v k e h
    simp only [dinsert, dlookup] at h
    split at h
    · next heq =>
      left
      have heq' : k0 = k := by simpa using heq
      exact ⟨heq'.symm, (Option.some.inj h).symm⟩
    · simp [dlookup] at h
  | cons p d ih =>
    intro k0 v k e h
    simp only [dinsert] at h
    split at h
    · next hp =>
      simp only [dlookup] at h ⊢
      split at h
      · next hk =>
        left
        have hk' : k0 = k := by simpa using hk
        exact ⟨hk'.symm, (Option.some.inj h).symm⟩
      · next hk =>
        right
        have hp' : p.1 = k0 := by simpa using hp
        rw [if_neg (by rw [hp']; exact hk)]
        exact h
    · next hp =>
      simp only [dlookup] at h ⊢
      split at h
      · next hk =>
        right
        rw [if_pos hk]
        exact h
      · next hk =>
        rcases ih k0 v k e h with h1 | h2
        · exact Or.inl h1
        · right
          rw [if_neg hk]
          exact h2

/-- What it means for a dictionary binding to be a legitimate extraction
result: some table entry targets this key, its source socket is unlinked,
and the stored value is the entry's transform of the resting value —
RGB-only for colors, `1 - v` for inverted scalars. -/
def ExtractOk (P : Principled) (k : String) (e : EVal) : Prop :=
  ∃ m ∈ valueMapping, m.dst = k ∧
    ((∃ r g b a, plookup P m.src = some (false, PVal.pcolor r g b a)
        ∧ m.isColor = true ∧ e = EVal.ecolor r g b)
     ∨ (∃ s, plookup P m.src = some (false, PVal.pscalar s)
        ∧ m.isColor = false
        ∧ e = EVal.escalar (if m.invert then 1 - s else s)))

theorem extractFold_sound (P : Principled) :
    ∀ (ms : List VMap) (d : Dict),
      (∀ m, m ∈ ms → m ∈ valueMapping) →
      (∀ k e, dlookup d k = some e → ExtractOk P k e) →
      ∀ k e, dlookup (ms.foldl (extractEntry P) d) k = some e →
        ExtractOk P k e := by
  intro ms
  induction ms with
  | nil =>
    intro d _ hd k e h
    exact hd k e h
  | cons m ms ih =>
    intro d hms hd k e h
    refine ih (extractEntry P d m)
      (fun m' hm' => hms m' (List.mem_cons_of_mem _ hm')) ?_ k e h
    intro k' e' h'
    have hmem : m ∈ valueMapping := hms m (List.mem_cons_self m ms)
    unfold extractEntry at h'
    cases hp : plookup P m.src with
    | none =>
      rw [hp] at h'
      exact hd k' e' h'
    | some lv =>
      obtain ⟨linked, v⟩ := lv
      rw [hp] at h'
      cases linked with
      | true =>
        exact hd k' e' h'
      | false =>
        cases v with
        | pscalar s =>
          simp only [extractEntryVal] at h'
          split at h'
          · exact hd k' e' h'
          · next hic =>
            rcases dlookup_dinsert_sound d m.dst _ k' e' h' with ⟨rfl, rfl⟩ | h2
            · exact ⟨m, hmem, rfl, Or.inr ⟨s, hp, by simpa using hic, rfl⟩⟩
            · exact hd k' e' h2
        | pcolor r g b a =>
          simp only [extractEntryVal] at h'
          split at h'
          · next hic =>
            rcases dlookup_dinsert_sound d m.dst _ k' e' h' with ⟨rfl, rfl⟩ | h2
            · exact ⟨m, hmem, rfl, Or.inl ⟨r, g, b, a, hp, hic, rfl⟩⟩
            · exact hd k' e' h2
          · exact hd k' e' h'

theorem dget_any :
    ∀ (D : Disney) (k : String) (sock : DSock),
      dget D k = some sock → D.any (fun s => s.name == k) = true := by
  intro D
  induction D with
  | nil =>
    intro k sock h
    simp [dget] at h
  | cons s D ih =>
    intro k sock h
    simp only [dget] at h
    simp only [List.any_cons, Bool.or_eq_true]
    split at h
    · next hc => exact Or.inl hc
    · next hc => exact Or.inr (ih k sock h)

theorem findTargetName_exact (D : Disney) (k : String)
    (h : D.any (fun s => s.name == k) = true) :
    findTargetName D k = some k := by
  unfold findTargetName
  rw [if_pos h]

theorem updateSock_cons (s : DSock) (D : Disney) (t : String) (v : SVal) :
    updateSock (s :: D) t v =
      (if s.name == t then { s with val := v } else s) :: updateSock D t v :=
  rfl

theorem name_setVal (s : DSock) (v : SVal) :
    ({ s with val := v } : DSock).name = s.name :=
  rfl

theorem dget_updateSock_ne :
    ∀ (D : Disney) (t : String) (v : SVal) (k : String), k ≠ t →
      dget (updateSock D t v) k = dget D k := by
  intro D t v
  induction D with
  | nil =>
    intro k _
    rfl
  | cons s D ih =>
    intro k hk
    by_cases hst : (s.name == t) = true
    · have hname : s.name = t := by simpa using hst
      have hsk : (s.name == k) = false := by
        cases hc : (s.name == k) with
        | false => rfl
        | true =>
          have hck : s.name = k := by simpa using hc
          exact absurd (hname.symm.trans hck).symm hk
      rw [updateSock_cons, if_pos hst]
      simp only [dget, name_setVal]
      rw [if_neg (show ¬((s.name == k) = true) from by simp [hsk]),
        if_neg (show ¬((s.name == k) = true) from by simp [hsk])]
      exact ih k hk
    · rw [updateSock_cons, if_neg hst]
      simp only [dget]
      by_cases hsk : (s.name == k) = true
      · rw [if_pos hsk, if_pos hsk]
      · rw [if_neg hsk, if_neg hsk]
        exact ih k hk

theorem dget_updateSock_eq :
    ∀ (D : Disney) (t : String) (v : SVal),
      dget (updateSock D t v) t =
        (dget D t).map (fun s => { s with val := v }) := by
  intro D t v
  induction D with
  | nil => rfl
  | cons s D ih =>
    by_cases hst : (s.name == t) = true
    · rw [updateSock_cons, if_pos hst]
      simp only [dget, name_setVal]
      rw [if_pos hst, if_pos hst]
      rfl
    · rw [updateSock_cons, if_neg hst]
      simp only [dget]
      rw [if_neg hst, if_neg hst]
      exact ih

theorem applyOne_linked_preserved (D : Disney) (kv : String × EVal)
    (k : String) (sock : DSock) (h : dget D k = some sock)
    (hl : sock.linked = true) :
    dget (applyOne D kv).1 k = some sock := by
  unfold applyOne
  split
  · exact h
  · simp only [applyOneTarget]
    cases hT : findTargetName D kv.1 with
    | none => exact h
    | some t =>
      simp only [applyOneTarget]
      cases hS : dget D t with
      | none =>
        simp only [applyOneSock]
        exact h
      | some sock2 =>
        simp only [applyOneSock]
        split
        · exact h
        · next hl2 =>
          cases hw : writeVal sock2.val kv.2 with
          | none => exact h
          | some v =>
            by_cases hkt : k = t
            · subst hkt
              rw [h] at hS
              rw [Option.some.inj hS] at hl
              exact absurd hl hl2
            · exact (dget_updateSock_ne D t v k hkt).trans h

/-- C8.  Claimed skip conditions and transforms of the value transfer.
Extraction soundness: every binding of the extracted dictionary comes from
a table entry whose Principled source socket was unlinked, with colors cut
to RGB and invert-flagged scalars stored as `1 - v`.  Link protection: a
Disney socket already carrying an incoming connection is never modified by
the apply pass.  Write transforms: into an unlinked four-component socket a
color writes its RGB with the fourth component forced to 1.0, and a scalar
into a scalar slot is written verbatim (the `1 - v` inversion having
happened at extraction). -/
theorem c8_value_transfer :
    (∀ (P : Principled) (k : String) (e : EVal),
        dlookup (extractPrincipledValues P) k = some e → ExtractOk P k e)
    ∧ (∀ (vals : Dict) (D : Disney) (k : String) (sock : DSock),
        dget D k = some sock → sock.linked = true →
        dget (applyPrincipledValues vals D).disney k = some sock)
    ∧ (∀ (D : Disney) (k : String) (sock : DSock) (r g b c0 c1 c2 c3 : ℚ),
        dget D k = some sock → sock.linked = false →
        sock.val = SVal.sv4 c0 c1 c2 c3 →
        (k == "Emission Color" || k == "Emission Strength") = false →
        dget (applyOne D (k, EVal.ecolor r g b)).1 k =
          some { sock with val := SVal.sv4 r g b 1 })
    ∧ (∀ (D : Disney) (k : String) (sock : DSock) (v c0 : ℚ),
        dget D k = some sock → sock.linked = false →
        sock.val = SVal.sf c0 →
        (k == "Emission Color" || k == "Emission Strength") = false →
        dget (applyOne D (k, EVal.escalar v)).1 k =
          some { sock with val := SVal.sf v }) := by
  refine ⟨?_, ?_, ?_, ?_⟩
  · intro P k e h
    exact extractFold_sound P valueMapping [] (fun m hm => hm)
      (fun k' e' h' => by simp [dlookup] at h') k e h
  · intro vals D k sock h hl
    exact foldl_preserve
      (fun st : Disney × Nat => dget st.1 k = some sock)
      (fun st kv =>
        let r1 := applyOne st.1 kv
        (r1.1, st.2 + r1.2))
      (fun st kv hst => applyOne_linked_preserved st.1 kv k sock hst hl)
      vals (D, _) h
  · intro D k sock r g b c0 c1 c2 c3 h hl hval hk
    have hany := dget_any D k sock h
    unfold applyOne
    split
    · next hc =>
      have hc' : ((k : String) == "Emission Color"
          || k == "Emission Strength") = true := hc
      rw [hk] at hc'
      exact absurd hc' Bool.false_ne_true
    · have hT : findTargetName D (k, EVal.ecolor r g b).1 = some k :=
        findTargetName_exact D k hany
      rw [hT]
      simp only [applyOneTarget]
      rw [h]
      simp only [applyOneSock]
      split
      · next hlt =>
        rw [hl] at hlt
        exact absurd hlt Bool.false_ne_true
      · rw [hval]
        show dget (updateSock D k (SVal.sv4 r g b 1)) k =
          some { sock with val := SVal.sv4 r g b 1 }
        rw [dget_updateSock_eq, h]
        rfl
  · intro D k sock v c0 h hl hval hk
    have hany := dget_any D k sock h
    unfold applyOne
    split
    · next hc =>
      have hc' : ((k : String) == "Emission Color"
          || k == "Emission Strength") = true := hc
      rw [hk] at hc'
      exact absurd hc' Bool.false_ne_true
    · have hT : findTargetName D (k, EVal.escalar v).1 = some k :=
        findTargetName_exact D k hany
      rw [hT]
      simp only [applyOneTarget]
      rw [h]
      simp only [applyOneSock]
      split
      · next hlt =>
        rw [hl] at hlt
        exact absurd hlt Bool.false_ne_true
      · rw [hval]
        show dget (updateSock D k (SVal.sf v)) k =
          some { sock with val := SVal.sf v }
        rw [dget_updateSock_eq, h]
        rfl

theorem c8_value_transfer_witness :
    ExtractOk [("Metallic", false, PVal.pscalar 1)] "Metallic" (EVal.escalar 1)
    ∧ dget (applyPrincipledValues []
        [⟨"Metallic", true, SVal.sf 0⟩]).disney "Metallic"
      = some ⟨"Metallic", true, SVal.sf 0⟩
    ∧ dget (applyOne [⟨"Base Color", false, SVal.sv4 0 0 0 1⟩]
        ("Base Color", EVal.ecolor 1 0 0)).1 "Base Color"
      = some ⟨"Base Color", false, SVal.sv4 1 0 0 1⟩
    ∧ dget (applyOne [⟨"Roughness", false, SVal.sf 0⟩]
        ("Roughness", EVal.escalar 1)).1 "Roughness"
      = some ⟨"Roughness", false, SVal.sf 1⟩ := by
  refine ⟨?_, ?_, ?_, ?_⟩
  · exact c8_value_transfer.1 [("Metallic", false, PVal.pscalar 1)] "Metallic"
      (EVal.escalar 1) (by decide)
  · exact c8_value_transfer.2.1 [] [⟨"Metallic", true, SVal.sf 0⟩] "Metallic"
      ⟨"Metallic", true, SVal.sf 0⟩ (by decide) rfl
  · exact c8_value_transfer.2.2.1 [⟨"Base Color", false, SVal.sv4 0 0 0 1⟩]
      "Base Color" ⟨"Base Color", false, SVal.sv4 0 0 0 1⟩ 1 0 0 0 0 0 1
      (by decide) rfl rfl (by decide)
  · exact c8_value_transfer.2.2.2 [⟨"Roughness", false, SVal.sf 0⟩]
      "Roughness" ⟨"Roughness", false, SVal.sf 0⟩ 1 0
      (by decide) rfl rfl (by decide)

/-! ## Claim C9: the emission validity threshold -/

theorem hasValidEmission_ecolor (r g b : ℚ) (es : Option EVal) :
    hasValidEmission (some (EVal.ecolor r g b)) es = true
    ↔ ((r > 1/1000 ∨ g > 1/1000 ∨ b > 1/1000)
       ∧ (∀ s, es = some (EVal.escalar s) → s > 0)
       ∧ (∀ r' g' b', es ≠ some (EVal.ecolor r' g' b'))) := by
  cases es with
  | none =>
    simp only [hasValidEmission]
    by_cases hcond : (r > 1/1000 ∨ g > 1/1000 ∨ b > 1/1000)
    · rw [if_pos hcond]
      constructor
      · intro _
        refine ⟨hcond, ?_, ?_⟩
        · intro s hs
          cases hs
        · intro r' g' b' hs
          cases hs
      · exact fun _ => rfl
    · rw [if_neg hcond]
      constructor
      · intro h
        exact absurd h Bool.false_ne_true
      · rintro ⟨hc2, -, -⟩
        exact absurd hc2 hcond
  | some e =>
    cases e with
    | escalar s =>
      simp only [hasValidEmission]
      by_cases hcond : (r > 1/1000 ∨ g > 1/1000 ∨ b > 1/1000)
      · rw [if_pos hcond]
        constructor
        · intro h
          refine ⟨hcond, ?_, ?_⟩
          · intro s' hs'
            have hss : s = s' := by simpa using hs'
            subst hss
            exact of_decide_eq_true h
          · intro r' g' b' hs'
            simp at hs'
        · rintro ⟨-, hsc, -⟩
          show decide (s > 0) = true
          exact decide_eq_true (hsc s rfl)
      · rw [if_neg hcond]
        constructor
        · intro h
          exact absurd h Bool.false_ne_true
        · rintro ⟨hc2, -, -⟩
          exact absurd hc2 hcond
    | ecolor r1 g1 b1 =>
      simp only [hasValidEmission]
      by_cases hcond : (r > 1/1000 ∨ g > 1/1000 ∨ b > 1/1000)
      · rw [if_pos hcond]
        constructor
        · intro h
          exact absurd (h : (false : Bool) = true) Bool.false_ne_true
        · rintro ⟨-, -, hne⟩
          exact absurd rfl (hne r1 g1 b1)
      · rw [if_neg hcond]
        constructor
        · intro h
          exact absurd h Bool.false_ne_true
        · rintro ⟨hc2, -, -⟩
          exact absurd hc2 hcond

/-- C9.  Given an extracted emission color, the emission converter node is
created and the Emission edge is made (to an exactly named Emission input)
if and only if some channel of that color strictly exceeds 0.001, any
available scalar emission strength is strictly positive, and the
strength — when present — is not itself a color (a color-valued strength
fails the validity test). -/
theorem c9_emission_threshold
    (vals : Dict) (D : Disney) (r g b : ℚ)
    (hc : dlookup vals "Emission Color" = some (EVal.ecolor r g b))
    (hD : D.any (fun s => s.name == "Emission") = true) :
    ((applyPrincipledValues vals D).emissionNodeCreated = true
      ∧ (applyPrincipledValues vals D).emissionEdge = some "Emission")
    ↔ ((r > 1/1000 ∨ g > 1/1000 ∨ b > 1/1000)
       ∧ (∀ s, dlookup vals "Emission Strength" = some (EVal.escalar s)
            → s > 0)
       ∧ (∀ r' g' b', dlookup vals "Emission Strength"
            ≠ some (EVal.ecolor r' g' b'))) := by
  have hEN : (applyPrincipledValues vals D).emissionNodeCreated
      = hasValidEmission (dlookup vals "Emission Color")
          (dlookup vals "Emission Strength") := rfl
  have hEE : (applyPrincipledValues vals D).emissionEdge
      = (if hasValidEmission (dlookup vals "Emission Color")
            (dlookup vals "Emission Strength")
         then emissionEdgeTarget D else none) := rfl
  have hedge : emissionEdgeTarget D = some "Emission" := by
    unfold emissionEdgeTarget
    rw [if_pos hD]
  rw [hEN, hEE, hc]
  constructor
  · rintro ⟨hv, -⟩
    exact (hasValidEmission_ecolor r g b _).mp hv
  · intro hR
    have hv := (hasValidEmission_ecolor r g b
      (dlookup vals "Emission Strength")).mpr hR
    exact ⟨hv, by rw [if_pos hv]; exact hedge⟩

theorem c9_emission_threshold_witness :
    (((applyPrincipledValues [("Emission Color", EVal.ecolor 1 0 0)]
        [⟨"Emission", false, SVal.sv3 0 0 0⟩]).emissionNodeCreated = true
      ∧ (applyPrincipledValues [("Emission Color", EVal.ecolor 1 0 0)]
        [⟨"Emission", false, SVal.sv3 0 0 0⟩]).emissionEdge = some "Emission")
     ↔ (((1:ℚ) > 1/1000 ∨ (0:ℚ) > 1/1000 ∨ (0:ℚ) > 1/1000)
        ∧ (∀ s, dlookup [("Emission Color", EVal.ecolor 1 0 0)]
            "Emission Strength" = some (EVal.escalar s) → s > 0)
        ∧ (∀ r' g' b', dlookup [("Emission Color", EVal.ecolor 1 0 0)]
            "Emission Strength" ≠ some (EVal.ecolor r' g' b')))) :=
  c9_emission_threshold [("Emission Color", EVal.ecolor 1 0 0)]
    [⟨"Emission", false, SVal.sv3 0 0 0⟩] 1 0 0 (by decide) (by decide)

end Luxcore
